import Mathlib

/-!
Verification of the Flight Energy Simulation engine
(`backend/services/energy_calculator.py`) against its specification.

The engine is shallowly embedded over the real numbers: Python float
arithmetic is modelled by exact real arithmetic, `math.sin` / `math.cos` /
`math.asin` / `math.sqrt` / `**` by their Mathlib counterparts.  Python's
`ZeroDivisionError` and `ValueError` are modelled by an `Except` monad:
every division whose denominator is not syntactically guarded by the source
goes through `pydiv`, which fails exactly when the denominator is zero,
mirroring Python float division.  `try/except` blocks whose bodies are total
in exact arithmetic (all their divisions are guarded) are modelled by the
body alone; their fallback expressions are kept as separate definitions so
claims about the fallback values can be stated.
-/

namespace FlightSim

noncomputable section

/-! ### Data model (`models/vehicles.py`, `models/waypoint.py`, `models/simulation.py`) -/

/-- `VehicleType` enum from `models/vehicles.py`. -/
inductive VehicleType where
  | multirotor
  | vtol
  | plane
deriving DecidableEq

/-- `FrameType` enum from `models/vehicles.py`. -/
inductive FrameType where
  | tri
  | quad
  | hexa
  | octo
deriving DecidableEq

/-- `MotorConfiguration` enum from `models/vehicles.py`. -/
inductive MotorConfiguration where
  | single
  | coaxial
deriving DecidableEq

/-- `VehicleConfig` from `models/vehicles.py`, restricted to the fields the
energy calculator reads.  Fields with a non-`None` pydantic default are plain
reals carrying that default; `hover_power` and `forward_thrust_power` default
to `None` and are modelled as `Option ℝ`. -/
structure VehicleConfig where
  vehicle_type : VehicleType
  mass : ℝ
  max_power : ℝ
  hover_power : Option ℝ := none
  forward_thrust_power : Option ℝ := none
  cruise_speed : ℝ
  max_speed : ℝ
  max_climb_rate : ℝ
  max_descent_speed : ℝ
  battery_capacity : ℝ
  battery_voltage : ℝ
  frame_type : FrameType := .quad
  motor_config : MotorConfiguration := .single
  drag_coefficient : ℝ := 0.03
  wing_area : ℝ := 0.5
  rotor_diameter : ℝ := 0.3
  motor_efficiency : ℝ := 0.85
  propeller_efficiency : ℝ := 0.75

/-- `Waypoint` from `models/waypoint.py` (the calculator reads only these
three fields). -/
structure Waypoint where
  latitude : ℝ
  longitude : ℝ
  altitude : ℝ

/-- `WindData` from `models/waypoint.py`. -/
structure WindData where
  latitude : ℝ := 0
  longitude : ℝ := 0
  altitude : ℝ := 0
  wind_speed_ms : ℝ
  wind_direction_deg : ℝ
  wind_vector_x : ℝ
  wind_vector_y : ℝ
  wind_vector_z : ℝ := 0

/-! ### Python semantics helpers -/

/-- Python error values the engine can raise. -/
inductive PyErr where
  | valueError : String → PyErr
  | zeroDivisionError
deriving DecidableEq

/-- Python float division: raises `ZeroDivisionError` exactly when the
denominator is zero. -/
def pydiv (x y : ℝ) : Except PyErr ℝ :=
  if y = 0 then .error .zeroDivisionError else .ok (x / y)

/-- Python `x or d` for floats: `0.0` is falsy. -/
def pyOr (x d : ℝ) : ℝ := if x = 0 then d else x

/-- Python `x or d` for `Optional[float]`: `None` and `0.0` are falsy. -/
def pyOrOpt (x : Option ℝ) (d : ℝ) : ℝ :=
  match x with
  | none => d
  | some v => pyOr v d

/-- Python truthiness of an `Optional[float]`. -/
def pyTruthy (x : Option ℝ) : Prop :=
  ∃ v, x = some v ∧ v ≠ 0

/-- Python `a % b` for floats with a positive modulus. -/
def pymod (a b : ℝ) : ℝ := a - b * ⌊a / b⌋

/-- Python `round(x, 2)`.  (Python rounds half-to-even; this rounds half-up,
the two agree except at exact half-cent ties, which are irrelevant to the
claims.) -/
def pyround2 (x : ℝ) : ℝ := (round (x * 100) : ℤ) / 100

/-- Python `round(x, 1)`. -/
def pyround1 (x : ℝ) : ℝ := (round (x * 10) : ℤ) / 10

/-- `math.atan2`. -/
def atan2 (y x : ℝ) : ℝ :=
  if 0 < x then Real.arctan (y / x)
  else if x < 0 then
    (if 0 ≤ y then Real.arctan (y / x) + Real.pi else Real.arctan (y / x) - Real.pi)
  else if 0 < y then Real.pi / 2
  else if y < 0 then -(Real.pi / 2)
  else 0

/-- `math.radians`. -/
def radians (x : ℝ) : ℝ := x * Real.pi / 180

/-- `math.degrees`. -/
def degrees (x : ℝ) : ℝ := x * 180 / Real.pi

/-! ### Constants (`EnergyCalculator.__init__`) -/

/-- `self.GRAVITY` (m/s²). -/
def GRAVITY : ℝ := 9.81

/-- `self.AIR_DENSITY` (kg/m³ at sea level). -/
def AIR_DENSITY : ℝ := 1.225

/-! ### Geodesy (`calculate_distance`, lines 32-49, and the identical inline
haversine of `calculate_copter_interpolated_segments`, lines 505-514) -/

/-- The squared-half-chord haversine term `a` (lines 41 / 511), before the
`max(0, a)` guard. -/
def haversine_term (wp1 wp2 : Waypoint) : ℝ :=
  let lat1 := radians wp1.latitude
  let lat2 := radians wp2.latitude
  let dlat := lat2 - lat1
  let dlon := radians wp2.longitude - radians wp1.longitude
  Real.sin (dlat / 2) ^ 2 + Real.cos lat1 * Real.cos lat2 * Real.sin (dlon / 2) ^ 2

/-- Haversine great-circle distance in metres
(`2 * asin(sqrt(max(0, a))) * 6371000`, lines 42-43 / 512-514). -/
def horizontal_distance (wp1 wp2 : Waypoint) : ℝ :=
  6371000 * (2 * Real.arcsin (Real.sqrt (max 0 (haversine_term wp1 wp2))))

/-- `calculate_distance`: 3-D distance between two waypoints (lines 32-49). -/
def calculate_distance (wp1 wp2 : Waypoint) : ℝ :=
  Real.sqrt (horizontal_distance wp1 wp2 ^ 2 + (wp2.altitude - wp1.altitude) ^ 2)

/-! ### Atmosphere model (`calculate_air_density`, lines 51-68) -/

/-- `calculate_air_density`: clamped barometric approximation. -/
def calculate_air_density (altitude : ℝ) : ℝ :=
  let altitude := max 0 altitude
  let temperature_sea_level : ℝ := 288.15
  let temperature := max 200.0 (temperature_sea_level - 0.0065 * altitude)
  let pressure_factor := max 0.01 ((temperature / temperature_sea_level) ^ (5.255 : ℝ))
  max 0.01 (AIR_DENSITY * pressure_factor)

/-! ### Hover power (`_calculate_hover_motors_count`, `estimate_hover_power`,
lines 70-85 and 217-266) -/

/-- `_calculate_hover_motors_count` (lines 70-85). -/
def calculate_hover_motors_count (config : VehicleConfig) : ℕ :=
  let base_count : ℕ :=
    match config.frame_type with
    | .tri => 3
    | .quad => 4
    | .hexa => 6
    | .octo => 8
  if config.motor_config = .coaxial then base_count * 2 else base_count

/-- The momentum-theory denominator `2 * air_density * rotor_area` formed at
line 241 from the clamped density (line 235) and clamped rotor diameter
(line 234). -/
def estimate_hover_denominator (config : VehicleConfig) (air_density : ℝ) : ℝ :=
  2 * max 0.1 air_density * (Real.pi * (max 0.1 (pyOr config.rotor_diameter 0.3) / 2) ^ 2)

/-- The `denominator <= 0` guard branch of `estimate_hover_power` (line 244).
Its own comment says "~15W pro kg" but the expression multiplies by gravity. -/
def estimate_hover_guard_fallback (config : VehicleConfig) : ℝ :=
  config.mass * GRAVITY * 15.0

/-- Body of the `try` block of `estimate_hover_power` (lines 222-261).  The
block is total in exact arithmetic, so the `except` fallback
(`config.mass * 15.0`, line 266) is unreachable. -/
def hover_momentum_estimate (config : VehicleConfig) (air_density : ℝ)
    (hover_motors_count : ℕ) : ℝ :=
  let thrust := config.mass * GRAVITY
  let thrust_per_motor := thrust / (max 1 hover_motors_count : ℕ)
  let denominator := estimate_hover_denominator config air_density
  if denominator ≤ 0 then estimate_hover_guard_fallback config
  else
    let sqrt_arg := thrust_per_motor / denominator
    let sqrt_arg := if sqrt_arg < 0 then 0 else sqrt_arg
    let ideal_power_per_motor := thrust_per_motor * Real.sqrt sqrt_arg
    let actual_power_per_motor := ideal_power_per_motor / 0.7
    |actual_power_per_motor * (hover_motors_count : ℕ)|

/-- `estimate_hover_power` (lines 217-266): returns `config.hover_power` when
truthy, else the momentum-theory estimate. -/
def estimate_hover_power (config : VehicleConfig) (air_density : ℝ)
    (hover_motors_count : ℕ) : ℝ :=
  pyOrOpt config.hover_power (hover_momentum_estimate config air_density hover_motors_count)

/-! ### Speed-efficiency curve and drag (`_calculate_speed_efficiency_factor`,
`_calculate_dynamic_drag_coefficient`, lines 268-335) -/

/-- `sweet_spot_min = max(2.0, mass * 0.3)` (line 280). -/
def sweet_spot_min (config : VehicleConfig) : ℝ := max 2.0 (config.mass * 0.3)

/-- `sweet_spot_max = max(4.0, mass * 0.5)` (line 281). -/
def sweet_spot_max (config : VehicleConfig) : ℝ := max 4.0 (config.mass * 0.5)

/-- `_calculate_speed_efficiency_factor` (lines 268-312).  The `try` body is
total, so the `except` fallback (`1.0`) is unreachable. -/
def calculate_speed_efficiency_factor (speed : ℝ) (config : VehicleConfig) : ℝ :=
  let ssmin := sweet_spot_min config
  let ssmax := sweet_spot_max config
  let sweet_spot_center := (ssmin + ssmax) / 2
  let efficiency_multiplier : ℝ := 0.45
  let max_efficiency_gain : ℝ := 0.10
  if speed = 0 then 1.0
  else if speed ≤ ssmin then
    1.0 - speed / ssmin * 0.25 * efficiency_multiplier
  else if speed ≤ ssmax then
    let normalized_pos := (speed - sweet_spot_center) / (ssmax - sweet_spot_center)
    0.75 - max_efficiency_gain * efficiency_multiplier * (1 - normalized_pos ^ 2)
  else
    0.75 + min 0.4 ((speed - ssmax) * 0.03)

/-- `_calculate_dynamic_drag_coefficient` (lines 314-335).  The `try` body is
total, so the `except` fallback is unreachable. -/
def calculate_dynamic_drag_coefficient (speed : ℝ) (config : VehicleConfig) : ℝ :=
  let base_cd := pyOr config.drag_coefficient 0.03
  if speed ≤ 3.0 then base_cd
  else if speed ≤ 8.0 then base_cd * 0.9
  else base_cd * (1.0 + (speed - 8.0) * 0.15)

/-! ### Wind impact (`_calculate_wind_power_impact`, lines 337-376) -/

/-- `_calculate_wind_power_impact` (lines 337-376).  The `try` body is total,
so the `except` fallback (`0.0`) is unreachable. -/
def calculate_wind_power_impact (speed : ℝ) (wind_data : Option WindData)
    (air_density drag_coefficient wing_area motor_efficiency propeller_efficiency : ℝ) : ℝ :=
  match wind_data with
  | none => 0.0
  | some wd =>
    let wind_x := wd.wind_vector_x
    let wind_y := wd.wind_vector_y
    let wind_speed := Real.sqrt (wind_x ^ 2 + wind_y ^ 2)
    if wind_speed < 0.1 ∨ speed < 0.1 then 0.0
    else
      let relative_speed := Real.sqrt ((speed + wind_x) ^ 2 + wind_y ^ 2)
      let base_drag := 0.5 * air_density * drag_coefficient * wing_area * speed ^ 2
      let wind_drag := 0.5 * air_density * drag_coefficient * wing_area * relative_speed ^ 2
      let wind_drag_diff := |wind_drag - base_drag|
      let wind_power := wind_drag_diff * speed / (motor_efficiency * propeller_efficiency)
      let max_wind_power :=
        base_drag * speed / (motor_efficiency * propeller_efficiency) * 0.5
      min wind_power max_wind_power

/-! ### Multirotor power (`calculate_multirotor_power`, lines 87-153) -/

/-- `calculate_multirotor_power` (lines 87-153).  The `try` body is total in
exact arithmetic (every division has a clamped non-zero denominator), so the
`except` fallback is unreachable; it is kept as
`multirotor_power_fallback` below. -/
def calculate_multirotor_power (config : VehicleConfig) (speed climb_rate air_density : ℝ)
    (wind_data : Option WindData := none) (airspeed : Option ℝ := none) : ℝ :=
  let speed := max 0 speed
  let air_density := max 0.1 air_density
  let effective_airspeed :=
    match airspeed with
    | some a => max 0.1 a
    | none =>
      match wind_data with
      | none => speed
      | some wd =>
        let headwind_component := -wd.wind_vector_x
        max 0.1 (speed - headwind_component)
  let hover_motors_count := calculate_hover_motors_count config
  let base_hover_power :=
    pyOrOpt config.hover_power (estimate_hover_power config air_density hover_motors_count)
  let speed_efficiency_factor := calculate_speed_efficiency_factor effective_airspeed config
  let hover_power := base_hover_power * speed_efficiency_factor
  let drag_coefficient := calculate_dynamic_drag_coefficient effective_airspeed config
  let wing_area := max 0.01 (pyOr config.wing_area 0.5)
  let motor_efficiency := max 0.1 (pyOr config.motor_efficiency 0.85)
  let propeller_efficiency := max 0.1 (pyOr config.propeller_efficiency 0.75)
  let drag_force := 0.5 * air_density * drag_coefficient * wing_area * effective_airspeed ^ 2
  let horizontal_power :=
    drag_force * effective_airspeed / (motor_efficiency * propeller_efficiency)
  let climb_power :=
    if 0 < climb_rate then config.mass * GRAVITY * climb_rate / motor_efficiency else 0
  let wind_power := calculate_wind_power_impact speed wind_data air_density drag_coefficient
    wing_area motor_efficiency propeller_efficiency
  let total_power := |hover_power| + |horizontal_power| + |climb_power| + |wind_power|
  min total_power config.max_power

/-- The `except` fallback of `calculate_multirotor_power` (line 153):
`config.mass * 20.0`, returned without the `[0, max_power]` clamp. -/
def multirotor_power_fallback (config : VehicleConfig) : ℝ := config.mass * 20.0

/-! ### VTOL power (`calculate_vtol_power`, lines 155-183) -/

/-- `calculate_vtol_power` (lines 155-183).  Has no `try/except`; its
unguarded divisions (`speed / config.max_speed`, climb power by
`config.motor_efficiency`) can raise `ZeroDivisionError`. -/
def calculate_vtol_power (config : VehicleConfig) (speed climb_rate air_density : ℝ)
    (wind_data : Option WindData := none) : Except PyErr ℝ :=
  if speed < 5.0 then
    .ok (calculate_multirotor_power config speed climb_rate air_density wind_data)
  else
    pydiv speed config.max_speed >>= fun speed_fraction =>
    let hover_power_factor := max 0.3 (1.0 - speed_fraction * 0.7)
    let hover_motors_count := calculate_hover_motors_count config
    let hover_power := estimate_hover_power config air_density hover_motors_count *
      hover_power_factor
    let forward_thrust_power := pyOrOpt config.forward_thrust_power (config.max_power * 0.3)
    (if 0 < climb_rate then
      pydiv (config.mass * GRAVITY * climb_rate) config.motor_efficiency
    else pure 0) >>= fun climb_power =>
    let wind_power :=
      match wind_data with
      | none => 0
      | some wd =>
        let effective_speed :=
          Real.sqrt ((speed + wd.wind_vector_x) ^ 2 + wd.wind_vector_y ^ 2)
        let wind_factor := if 0 < speed then effective_speed / speed else 1.0
        forward_thrust_power * (wind_factor - 1.0) * 0.5
    let total_power := hover_power + forward_thrust_power + climb_power + wind_power
    .ok (min total_power config.max_power)

/-! ### Plane power (`calculate_plane_power`, lines 185-215) -/

/-- `calculate_plane_power` (lines 185-215).  Has no `try/except`; its
unguarded divisions (induced-drag denominator, efficiency product, climb
power) can raise `ZeroDivisionError`. -/
def calculate_plane_power (config : VehicleConfig) (speed climb_rate air_density : ℝ)
    (wind_data : Option WindData := none) : Except PyErr ℝ :=
  let drag_coefficient := config.drag_coefficient
  let wing_area := config.wing_area
  let lift_force := config.mass * GRAVITY
  pydiv lift_force (0.5 * air_density * speed ^ 2 * wing_area) >>= fun lift_coeff =>
  let induced_drag_coeff := lift_coeff ^ 2 / (Real.pi * 8)
  let total_drag_coeff := drag_coefficient + induced_drag_coeff
  let drag_force := 0.5 * air_density * total_drag_coeff * wing_area * speed ^ 2
  pydiv (drag_force * speed) (config.motor_efficiency * config.propeller_efficiency) >>=
    fun horizontal_power =>
  (if 0 < climb_rate then
    pydiv (config.mass * GRAVITY * climb_rate) config.motor_efficiency
  else pure 0) >>= fun climb_power =>
  let wind_power :=
    match wind_data with
    | none => 0
    | some wd =>
      let headwind_comp :=
        wd.wind_vector_x * Real.cos 0 + wd.wind_vector_y * Real.sin 0
      let wind_factor :=
        if 0 < speed then 1.0 + headwind_comp / speed * 0.3 else 1.0
      horizontal_power * (wind_factor - 1.0)
  let total_power := horizontal_power + climb_power + wind_power
  .ok (min (max total_power (horizontal_power * 0.5)) config.max_power)

/-! ### Flight bearing and wind decomposition
(`_calculate_wind_components_relative_to_flight`, lines 646-719, and the
identical inline bearing of `calculate_copter_interpolated_segments`,
lines 574-598) -/

/-- Forward-azimuth flight bearing in degrees `[0, 360)` (lines 576-584 /
665-677). -/
def flight_bearing_deg (wp1 wp2 : Waypoint) : ℝ :=
  let lat1 := radians wp1.latitude
  let lat2 := radians wp2.latitude
  let dlon := radians wp2.longitude - radians wp1.longitude
  let flight_bearing_rad := atan2 (Real.sin dlon * Real.cos lat2)
    (Real.cos lat1 * Real.sin lat2 - Real.sin lat1 * Real.cos lat2 * Real.cos dlon)
  pymod (degrees flight_bearing_rad + 360) 360

/-- The signed headwind component `-(wx*fx + wy*fy)` relative to the flight
bearing (lines 586-594 / 687-693). -/
def headwind_component (wp1 wp2 : Waypoint) (wd : WindData) : ℝ :=
  let flight_direction_x := Real.sin (radians (flight_bearing_deg wp1 wp2))
  let flight_direction_y := Real.cos (radians (flight_bearing_deg wp1 wp2))
  Neg.neg (wd.wind_vector_x * flight_direction_x + wd.wind_vector_y * flight_direction_y)

/-- The `wind_influence` record of a `FlightSegment` (dict of lines 701-708,
or the zero default of lines 413-419 / 459-465 when no wind is given). -/
structure WindInfluence where
  speed_ms : ℝ
  direction_deg : ℝ
  headwind_ms : ℝ
  crosswind_ms : ℝ
  influence_factor : ℝ
  flight_bearing_value : Option ℝ := none

/-- `_calculate_wind_components_relative_to_flight` (lines 646-719).  The
`try` body is total, so the `except` fallback is unreachable. -/
def calculate_wind_components_relative_to_flight (start_wp end_wp : Waypoint)
    (wd : WindData) : WindInfluence :=
  let flight_direction_x := Real.sin (radians (flight_bearing_deg start_wp end_wp))
  let flight_direction_y := Real.cos (radians (flight_bearing_deg start_wp end_wp))
  let headwind_ms :=
    -(wd.wind_vector_x * flight_direction_x + wd.wind_vector_y * flight_direction_y)
  let crosswind_ms :=
    wd.wind_vector_x * (-flight_direction_y) + wd.wind_vector_y * flight_direction_x
  { speed_ms := wd.wind_speed_ms
    direction_deg := wd.wind_direction_deg
    headwind_ms := pyround2 headwind_ms
    crosswind_ms := pyround2 crosswind_ms
    influence_factor := 1.0
    flight_bearing_value := some (pyround1 (flight_bearing_deg start_wp end_wp)) }

/-- The zero-wind `wind_influence` default (lines 413-419 / 459-465). -/
def zero_wind_influence : WindInfluence :=
  { speed_ms := 0, direction_deg := 0, headwind_ms := 0, crosswind_ms := 0
    influence_factor := 1.0 }

/-! ### Copter interpolation (`calculate_copter_interpolated_segments`,
lines 495-644) -/

/-- One entry of the `segments` list built at lines 618-628 (numeric fields
only; the constant strings `type` and `limiting_axis` are omitted). -/
structure CopterSegDetail where
  horizontal_speed : ℝ
  vertical_speed : ℝ
  climb_rate : ℝ
  power : ℝ
  energy : ℝ
  duration : ℝ
  distance : ℝ

/-- The dict returned by `calculate_copter_interpolated_segments`. -/
structure CopterResult where
  segments : List CopterSegDetail
  total_time : ℝ
  total_energy : ℝ
  total_distance : ℝ

/-- `max_horizontal_speed = min(cruise_speed, max_speed)` (line 525). -/
def copter_max_horizontal_speed (config : VehicleConfig) : ℝ :=
  min config.cruise_speed config.max_speed

/-- `max_vertical_speed`: climb limit when ascending, descent limit otherwise
(lines 528-531). -/
def copter_max_vertical_speed (config : VehicleConfig) (start_wp end_wp : Waypoint) : ℝ :=
  if 0 < end_wp.altitude - start_wp.altitude then config.max_climb_rate
  else config.max_descent_speed

/-- `time_horizontal` (line 536); the division is guarded by positivity of
both operands. -/
def copter_time_horizontal (config : VehicleConfig) (start_wp end_wp : Waypoint) : ℝ :=
  if 0 < horizontal_distance start_wp end_wp ∧ 0 < copter_max_horizontal_speed config then
    horizontal_distance start_wp end_wp / copter_max_horizontal_speed config
  else 0

/-- `time_vertical` (line 537). -/
def copter_time_vertical (config : VehicleConfig) (start_wp end_wp : Waypoint) : ℝ :=
  if 0 < |end_wp.altitude - start_wp.altitude| ∧
      0 < copter_max_vertical_speed config start_wp end_wp then
    |end_wp.altitude - start_wp.altitude| / copter_max_vertical_speed config start_wp end_wp
  else 0

/-- `flight_time = max(time_horizontal, time_vertical)` (line 542). -/
def copter_flight_time (config : VehicleConfig) (start_wp end_wp : Waypoint) : ℝ :=
  max (copter_time_horizontal config start_wp end_wp)
    (copter_time_vertical config start_wp end_wp)

/-- `actual_horizontal_speed` (line 556). -/
def copter_actual_horizontal_speed (config : VehicleConfig)
    (start_wp end_wp : Waypoint) : ℝ :=
  if 0 < copter_flight_time config start_wp end_wp then
    horizontal_distance start_wp end_wp / copter_flight_time config start_wp end_wp
  else 0

/-- `actual_vertical_speed` (line 557). -/
def copter_actual_vertical_speed (config : VehicleConfig)
    (start_wp end_wp : Waypoint) : ℝ :=
  if 0 < copter_flight_time config start_wp end_wp then
    |end_wp.altitude - start_wp.altitude| / copter_flight_time config start_wp end_wp
  else 0

/-- `climb_rate` (line 560), signed. -/
def copter_climb_rate (config : VehicleConfig) (start_wp end_wp : Waypoint) : ℝ :=
  if 0 < copter_flight_time config start_wp end_wp then
    (end_wp.altitude - start_wp.altitude) / copter_flight_time config start_wp end_wp
  else 0

/-- The wind-corrected airspeed handed to the power model (lines 574-604):
`max(0.1, actual_horizontal_speed - headwind_component)` with wind, else the
ground speed. -/
def copter_airspeed (config : VehicleConfig) (start_wp end_wp : Waypoint)
    (wind_data : Option WindData) : ℝ :=
  match wind_data with
  | some wd =>
    max 0.1 (copter_actual_horizontal_speed config start_wp end_wp -
      headwind_component start_wp end_wp wd)
  | none => copter_actual_horizontal_speed config start_wp end_wp

/-- The power computed for the whole copter segment (line 606): note the
airspeed is passed as the `speed` argument while the raw wind sample is
passed again as `wind_data`. -/
def copter_power (config : VehicleConfig) (start_wp end_wp : Waypoint)
    (wind_data : Option WindData) : ℝ :=
  calculate_multirotor_power config (copter_airspeed config start_wp end_wp wind_data)
    (copter_climb_rate config start_wp end_wp)
    (calculate_air_density ((start_wp.altitude + end_wp.altitude) / 2)) wind_data none

/-- `energy = power * flight_time / 3600` (line 614). -/
def copter_energy (config : VehicleConfig) (start_wp end_wp : Waypoint)
    (wind_data : Option WindData) : ℝ :=
  copter_power config start_wp end_wp wind_data * copter_flight_time config start_wp end_wp
    / 3600

/-- `calculate_copter_interpolated_segments` (lines 495-644).  The `try` body
is total in exact arithmetic (every division is guarded by a positivity
test), so the `except` fallback dict (lines 639-644) is unreachable.  The
3-D distance of lines 519-520 coincides with `calculate_distance`. -/
def calculate_copter_interpolated_segments (config : VehicleConfig)
    (start_wp end_wp : Waypoint) (wind_data : Option WindData := none) : CopterResult :=
  if copter_flight_time config start_wp end_wp = 0 then ⟨[], 0, 0, 0⟩
  else
    { segments := [⟨copter_actual_horizontal_speed config start_wp end_wp,
        copter_actual_vertical_speed config start_wp end_wp,
        copter_climb_rate config start_wp end_wp,
        copter_power config start_wp end_wp wind_data,
        copter_energy config start_wp end_wp wind_data,
        copter_flight_time config start_wp end_wp,
        calculate_distance start_wp end_wp⟩]
      total_time := copter_flight_time config start_wp end_wp
      total_energy := copter_energy config start_wp end_wp wind_data
      total_distance := calculate_distance start_wp end_wp }

/-! ### Mission pipeline (`calculate_energy_consumption`, lines 378-493) -/

/-- `FlightSegment` from `models/simulation.py`. -/
structure FlightSegment where
  segment_id : ℕ
  start_waypoint : Waypoint
  end_waypoint : Waypoint
  distance_m : ℝ
  duration_s : ℝ
  energy_wh : ℝ
  average_speed_ms : ℝ
  average_power_w : ℝ
  wind_influence : WindInfluence

/-- The `summary` dict built at lines 483-492. -/
structure Summary where
  battery_capacity_wh : ℝ
  remaining_energy_wh : ℝ
  remaining_battery_percent : ℝ
  is_feasible : Prop
  flight_time_minutes : ℝ
  energy_per_km : ℝ
  average_speed_ms : ℝ
  max_range_estimate_km : ℝ

/-- `SimulationResult` from `models/simulation.py`. -/
structure SimulationResult where
  total_energy_wh : ℝ
  total_distance_m : ℝ
  total_time_s : ℝ
  battery_usage_percent : ℝ
  flight_segments : List FlightSegment
  summary : Summary

/-- Wind sample for segment `i`:
`wind_data[min(i, len(wind_data) - 1)] if wind_data else None` (line 394);
an empty list is falsy, so it yields `None`. -/
def wind_at (wind_data : List WindData) (i : ℕ) : Option WindData :=
  wind_data.get? (min i (wind_data.length - 1))

/-- One iteration of the segment loop (lines 389-471), dispatching on the
vehicle type.  The `else: raise ValueError(Unbekannter Fahrzeugtyp)` at
line 443 covers no `VehicleType` constructor: the enum has exactly the three
dispatched values, so that raise is unreachable for well-typed configs. -/
def compute_segment (config : VehicleConfig) (wp1 wp2 : Waypoint) (i : ℕ)
    (current_wind : Option WindData) : Except PyErr FlightSegment :=
  match config.vehicle_type with
  | .multirotor =>
    let ir := calculate_copter_interpolated_segments config wp1 wp2 current_wind
    .ok
      { segment_id := i
        start_waypoint := wp1
        end_waypoint := wp2
        distance_m := ir.total_distance
        duration_s := ir.total_time
        energy_wh := ir.total_energy
        average_speed_ms := if 0 < ir.total_time then ir.total_distance / ir.total_time else 0
        average_power_w :=
          if 0 < ir.total_time then ir.total_energy * 3600 / ir.total_time else 0
        wind_influence :=
          match current_wind with
          | some wd => calculate_wind_components_relative_to_flight wp1 wp2 wd
          | none => zero_wind_influence }
  | vt =>
    let distance := calculate_distance wp1 wp2
    let avg_altitude := (wp1.altitude + wp2.altitude) / 2
    let air_density := calculate_air_density avg_altitude
    let speed := if 100 < distance then config.cruise_speed else config.cruise_speed * 0.7
    (if 0 < distance then
      pydiv distance speed >>= fun t => pydiv (wp2.altitude - wp1.altitude) t
    else pure 0) >>= fun climb_rate =>
    (match vt with
      | .vtol => calculate_vtol_power config speed climb_rate air_density current_wind
      | _ => calculate_plane_power config speed climb_rate air_density current_wind) >>=
      fun power =>
    let flight_time := if 0 < speed then distance / speed else 0
    let energy := power * flight_time / 3600
    .ok
      { segment_id := i
        start_waypoint := wp1
        end_waypoint := wp2
        distance_m := distance
        duration_s := flight_time
        energy_wh := energy
        average_speed_ms := speed
        average_power_w := power
        wind_influence :=
          match current_wind with
          | some wd => calculate_wind_components_relative_to_flight wp1 wp2 wd
          | none => zero_wind_influence }

/-- The segment loop of `calculate_energy_consumption` (lines 389-471). -/
def seg_loop (config : VehicleConfig) (wind_data : List WindData) :
    ℕ → List Waypoint → Except PyErr (List FlightSegment)
  | i, wp1 :: wp2 :: rest =>
    compute_segment config wp1 wp2 i (wind_at wind_data i) >>= fun s =>
    seg_loop config wind_data (i + 1) (wp2 :: rest) >>= fun ss =>
    .ok (s :: ss)
  | _, _ => .ok []

/-- `calculate_energy_consumption` (lines 378-493): input validation, segment
loop, totals, battery summary.  The battery-usage division (line 475) is
unguarded in the source and raises `ZeroDivisionError` when
`battery_capacity * battery_voltage = 0`. -/
def calculate_energy_consumption (config : VehicleConfig) (waypoints : List Waypoint)
    (wind_data : List WindData := []) : Except PyErr SimulationResult :=
  if waypoints.length < 2 then .error (.valueError "Mindestens 2 Waypoints erforderlich")
  else
    seg_loop config wind_data 0 waypoints >>= fun segments =>
    let total_energy := (segments.map FlightSegment.energy_wh).sum
    let total_time := (segments.map FlightSegment.duration_s).sum
    let total_distance := (segments.map FlightSegment.distance_m).sum
    let battery_capacity_wh := config.battery_capacity * config.battery_voltage / 1000
    pydiv total_energy battery_capacity_wh >>= fun usage_fraction =>
    let battery_usage_percent := usage_fraction * 100
    .ok
      { total_energy_wh := total_energy
        total_distance_m := total_distance
        total_time_s := total_time
        battery_usage_percent := battery_usage_percent
        flight_segments := segments
        summary :=
          { battery_capacity_wh := battery_capacity_wh
            remaining_energy_wh := battery_capacity_wh - total_energy
            remaining_battery_percent := 100 - battery_usage_percent
            is_feasible := total_energy < battery_capacity_wh
            flight_time_minutes := total_time / 60
            energy_per_km :=
              if 0 < total_distance then total_energy / (total_distance / 1000) else 0
            average_speed_ms := if 0 < total_time then total_distance / total_time else 0
            max_range_estimate_km :=
              if 0 < total_energy then
                battery_capacity_wh / total_energy * (total_distance / 1000)
              else 0 } }

/-! ### Auxiliary definitions for stating the claims -/

/-- The vehicle types handled by the dispatch of
`calculate_energy_consumption` (lines 397 / 438 / 440); every `VehicleType`
constructor is dispatched, so the `else: raise` at line 443 is dead. -/
def vehicle_type_recognized : VehicleType → Bool
  | .multirotor => true
  | .vtol => true
  | .plane => true

/-- A result that is a Python `ValueError` (input error). -/
def is_input_error (r : Except PyErr SimulationResult) : Prop :=
  ∃ msg, r = .error (.valueError msg)

/-- All numeric fields of a `FlightSegment` are non-negative. -/
def SegNonneg (s : FlightSegment) : Prop :=
  0 ≤ s.distance_m ∧ 0 ≤ s.duration_s ∧ 0 ≤ s.energy_wh ∧
    0 ≤ s.average_speed_ms ∧ 0 ≤ s.average_power_w

/-- A plain 10 kg quadrotor test configuration. -/
def cfgM : VehicleConfig :=
  { vehicle_type := .multirotor
    mass := 5
    max_power := 2000
    hover_power := some 800
    cruise_speed := 10
    max_speed := 15
    max_climb_rate := 3
    max_descent_speed := 2
    battery_capacity := 10000
    battery_voltage := 20 }

/-- `cfgM` with an empty battery (capacity 0 mAh). -/
def cfgZ : VehicleConfig := { cfgM with battery_capacity := 0 }

/-- A fixed-wing test configuration with a (physically meaningless but
type-correct) negative drag coefficient and zero mass. -/
def cfgP : VehicleConfig :=
  { vehicle_type := .plane
    mass := 0
    max_power := 1000
    cruise_speed := 12
    max_speed := 20
    max_climb_rate := 3
    max_descent_speed := 2
    battery_capacity := 1000
    battery_voltage := 10
    drag_coefficient := -0.1 }

/-- A 1 kg quadrotor with no configured hover power, used to exercise the
momentum-theory estimate. -/
def cfg8 : VehicleConfig :=
  { vehicle_type := .multirotor
    mass := 1
    max_power := 1000
    cruise_speed := 10
    max_speed := 15
    max_climb_rate := 5
    max_descent_speed := 3
    battery_capacity := 1000
    battery_voltage := 10 }

/-- The 10 kg quadrotor of the spec scenario (hover power 800 W, cruise
15 m/s, generous 5 kW power ceiling so that no clamping occurs). -/
def cfg7 : VehicleConfig :=
  { vehicle_type := .multirotor
    mass := 10
    max_power := 5000
    hover_power := some 800
    cruise_speed := 15
    max_speed := 20
    max_climb_rate := 3
    max_descent_speed := 2
    battery_capacity := 22000
    battery_voltage := 25.2 }

/-- Equator origin waypoint. -/
def wpE0 : Waypoint := ⟨0, 0, 0⟩

/-- Waypoint exactly 500 m due east of `wpE0` along the equator: its
longitude in radians is `1/12742`, so the haversine distance is
`6371000 / 12742 = 500`. -/
def wpE1 : Waypoint := ⟨0, 90 / (6371 * Real.pi), 0⟩

/-- A 10 m/s wind blowing from the west (meteorological 270°), i.e. the wind
vector points due east — exactly along the `wpE0 → wpE1` flight bearing, a
pure tailwind. -/
def wind7 : WindData :=
  { wind_speed_ms := 10
    wind_direction_deg := 270
    wind_vector_x := 10
    wind_vector_y := 0 }

end

/-! ## Theorems -/

/-- Inversion for a successful `Except` bind. -/
lemma except_bind_ok {ε α β : Type _} {x : Except ε α} {f : α → Except ε β} {b : β}
    (h : x >>= f = .ok b) : ∃ a, x = .ok a ∧ f a = .ok b := by
  cases x with
  | error e => simp [bind, Except.bind] at h
  | ok a => exact ⟨a, rfl, by simpa [bind, Except.bind] using h⟩

/-- Inversion for a failing `Except` bind. -/
lemma except_bind_error {ε α β : Type _} {x : Except ε α} {f : α → Except ε β} {e : ε}
    (h : x >>= f = .error e) : x = .error e ∨ ∃ a, x = .ok a ∧ f a = .error e := by
  cases x with
  | error e1 => left; simpa [bind, Except.bind] using h
  | ok a => right; exact ⟨a, rfl, by simpa [bind, Except.bind] using h⟩

/-- Forward rule for a successful `Except` bind. -/
lemma except_ok_bind {ε α β : Type _} {x : Except ε α} {f : α → Except ε β} {a : α}
    (h : x = .ok a) : x >>= f = f a := by
  rw [h]
  rfl

/-- `pydiv` only ever fails with `ZeroDivisionError`. -/
lemma pydiv_error {x y : ℝ} {e : PyErr} (h : pydiv x y = .error e) :
    e = .zeroDivisionError := by
  unfold pydiv at h
  split at h
  · exact (Except.error.inj h).symm
  · exact absurd h (by simp)

/-- A successful `pydiv` is ordinary division with a non-zero denominator. -/
lemma pydiv_ok {x y q : ℝ} (h : pydiv x y = .ok q) : q = x / y ∧ y ≠ 0 := by
  unfold pydiv at h
  split at h
  · exact absurd h (by simp)
  · exact ⟨(Except.ok.inj h).symm, by assumption⟩

/-- `pydiv` succeeds on a non-zero denominator. -/
lemma pydiv_ok_of_ne {x y : ℝ} (h : y ≠ 0) : pydiv x y = .ok (x / y) := by
  unfold pydiv
  exact if_neg h

/-- Helper: `calculate_air_density` is at least its final `max 0.01` floor. -/
lemma calculate_air_density_pos (altitude : ℝ) : 0 < calculate_air_density altitude := by
  unfold calculate_air_density
  exact lt_of_lt_of_le (by norm_num) (le_max_left _ _)

/-- Helper: monotone non-increasing on `[0, 11000]`. -/
lemma calculate_air_density_antitone {a1 a2 : ℝ} (h0 : 0 ≤ a1) (h12 : a1 ≤ a2)
    (h2 : a2 ≤ 11000) : calculate_air_density a2 ≤ calculate_air_density a1 := by
  simp only [calculate_air_density, AIR_DENSITY]
  rw [max_eq_right h0, max_eq_right (le_trans h0 h12)]
  have t1 : (200.0 : ℝ) ≤ 288.15 - 0.0065 * a1 := by nlinarith
  have t2 : (200.0 : ℝ) ≤ 288.15 - 0.0065 * a2 := by nlinarith
  rw [max_eq_right t1, max_eq_right t2]
  have hr : ((288.15 - 0.0065 * a2) / 288.15 : ℝ) ^ (5.255 : ℝ) ≤
      ((288.15 - 0.0065 * a1) / 288.15) ^ (5.255 : ℝ) := by
    apply Real.rpow_le_rpow
    · positivity
    · apply div_le_div_of_nonneg_right ?_ (by norm_num)
      · linarith
    · norm_num
  have hm : max (0.01 : ℝ) (((288.15 - 0.0065 * a2) / 288.15) ^ (5.255 : ℝ)) ≤
      max 0.01 (((288.15 - 0.0065 * a1) / 288.15) ^ (5.255 : ℝ)) := max_le_max le_rfl hr
  exact max_le_max le_rfl (by nlinarith)

/-- C6: `calculate_air_density` is strictly positive for every altitude and
monotonically non-increasing in altitude on `[0, 11000]`. -/
theorem C6_air_density :
    (∀ altitude : ℝ, 0 < calculate_air_density altitude) ∧
    (∀ a1 a2 : ℝ, 0 ≤ a1 → a1 ≤ a2 → a2 ≤ 11000 →
      calculate_air_density a2 ≤ calculate_air_density a1) :=
  ⟨calculate_air_density_pos, fun _ _ h0 h12 h2 => calculate_air_density_antitone h0 h12 h2⟩

/-- Witness for C6 at concrete altitudes. -/
theorem C6_witness :
    0 < calculate_air_density 500 ∧
      calculate_air_density 11000 ≤ calculate_air_density 0 :=
  ⟨C6_air_density.1 500, C6_air_density.2 0 11000 (by norm_num) (by norm_num) (by norm_num)⟩

/-- Helper: the raw haversine term never exceeds 1 in exact arithmetic. -/
lemma haversine_term_le_one (wp1 wp2 : Waypoint) : haversine_term wp1 wp2 ≤ 1 := by
  simp only [haversine_term]
  set p := radians wp1.latitude with hp
  set q := radians wp2.latitude with hq
  set y := (radians wp2.longitude - radians wp1.longitude) / 2 with hy
  have hs1 : Real.sin ((q - p) / 2) ^ 2 ≤ 1 := Real.sin_sq_le_one _
  have hsy : Real.sin y ^ 2 ≤ 1 := Real.sin_sq_le_one _
  have hsy0 : 0 ≤ Real.sin y ^ 2 := sq_nonneg _
  rcases le_or_lt (Real.cos p * Real.cos q) 0 with hc | hc
  · nlinarith
  · have pyth : Real.sin ((q - p) / 2) ^ 2 + Real.cos ((q - p) / 2) ^ 2 = 1 :=
      Real.sin_sq_add_cos_sq _
    have harg : (2 : ℝ) * ((q - p) / 2) = q - p := by ring
    have hcs : Real.cos ((q - p) / 2) ^ 2 = 1 / 2 + Real.cos (q - p) / 2 := by
      rw [Real.cos_sq, harg]
    have hsub : Real.cos (q - p) = Real.cos q * Real.cos p + Real.sin q * Real.sin p :=
      Real.cos_sub q p
    have hadd : Real.cos (p + q) = Real.cos p * Real.cos q - Real.sin p * Real.sin q :=
      Real.cos_add p q
    have hle1 : Real.cos (p + q) ≤ 1 := Real.cos_le_one _
    nlinarith

/-- C9: the clamped squared-half-chord term `max(0, a)` lies in `[0, 1]` for
every pair of waypoints, so the argument `sqrt(max(0, a))` handed to `asin`
lies inside the domain `[-1, 1]` and the distance computation is total. -/
theorem C9_haversine_clamped :
    ∀ wp1 wp2 : Waypoint,
      0 ≤ max 0 (haversine_term wp1 wp2) ∧
      max 0 (haversine_term wp1 wp2) ≤ 1 ∧
      Real.sqrt (max 0 (haversine_term wp1 wp2)) ≤ 1 := by
  intro wp1 wp2
  have h1 := haversine_term_le_one wp1 wp2
  exact ⟨le_max_left _ _, max_le (by norm_num) h1,
    Real.sqrt_le_one.mpr (max_le (by norm_num) h1)⟩

/-- Helper: the sweet-spot band is never degenerate, for any mass. -/
lemma sweet_spot_lt (config : VehicleConfig) :
    sweet_spot_min config < sweet_spot_max config := by
  unfold sweet_spot_min sweet_spot_max
  rcases le_or_lt (config.mass * 0.5) 4 with h | h
  · rw [max_eq_left (by nlinarith : config.mass * 0.5 ≤ (4.0:ℝ))]
    exact max_lt (by norm_num) (by nlinarith)
  · rw [max_eq_right (le_of_lt (by nlinarith : (4.0:ℝ) < config.mass * 0.5))]
    exact max_lt (by nlinarith) (by nlinarith)

/-- Helper: the speed-efficiency factor stays within `[0.705, 1.15]` for all
non-negative speeds. -/
lemma speed_efficiency_factor_bounds (config : VehicleConfig) (speed : ℝ)
    (hs : 0 ≤ speed) :
    0.705 ≤ calculate_speed_efficiency_factor speed config ∧
      calculate_speed_efficiency_factor speed config ≤ 1.15 := by
  have hlt := sweet_spot_lt config
  have hmin2 : (2 : ℝ) ≤ sweet_spot_min config := by
    unfold sweet_spot_min
    norm_num [le_max_iff]
  have hmax4 : (4 : ℝ) ≤ sweet_spot_max config := by
    unfold sweet_spot_max
    norm_num [le_max_iff]
  simp only [calculate_speed_efficiency_factor]
  split_ifs with h0 h1 h2
  · norm_num
  · have hq0 : 0 ≤ speed / sweet_spot_min config := div_nonneg hs (by linarith)
    have hq1 : speed / sweet_spot_min config ≤ 1 := div_le_one_of_le₀ h1 (by linarith)
    constructor <;> nlinarith
  · push_neg at h1
    set c := (sweet_spot_min config + sweet_spot_max config) / 2 with hcdef
    have hd : 0 < sweet_spot_max config - c := by rw [hcdef]; linarith
    have hnp1 : (speed - c) / (sweet_spot_max config - c) ≤ 1 :=
      div_le_one_of_le₀ (by linarith) hd.le
    have hnp2 : -1 ≤ (speed - c) / (sweet_spot_max config - c) := by
      rw [le_div_iff₀ hd]
      have : c - (sweet_spot_max config - c) = sweet_spot_min config := by
        rw [hcdef]; ring
      nlinarith
    have hsq : ((speed - c) / (sweet_spot_max config - c)) ^ 2 ≤ 1 := by nlinarith
    have hsq0 : 0 ≤ ((speed - c) / (sweet_spot_max config - c)) ^ 2 := sq_nonneg _
    constructor <;> nlinarith
  · push_neg at h2
    have hmin0 : 0 ≤ min 0.4 ((speed - sweet_spot_max config) * 0.03) :=
      le_min (by norm_num) (by nlinarith)
    have hminle : min (0.4 : ℝ) ((speed - sweet_spot_max config) * 0.03) ≤ 0.4 :=
      min_le_left _ _
    constructor <;> nlinarith

/-- C10: for positive mass and non-negative speed the rotorcraft
speed-efficiency factor lies in `[0.705, 1.15]`, equals exactly `1.0` at
speed 0, and the sweet-spot band is non-degenerate (so the band
interpolation never divides by zero). -/
theorem C10_efficiency_factor_bounds :
    ∀ (config : VehicleConfig) (speed : ℝ), 0 < config.mass → 0 ≤ speed →
      (0.705 ≤ calculate_speed_efficiency_factor speed config ∧
        calculate_speed_efficiency_factor speed config ≤ 1.15) ∧
      (speed = 0 → calculate_speed_efficiency_factor speed config = 1.0) ∧
      sweet_spot_min config < sweet_spot_max config := by
  intro config speed hm hs
  refine ⟨speed_efficiency_factor_bounds config speed hs, ?_, sweet_spot_lt config⟩
  intro h
  subst h
  simp [calculate_speed_efficiency_factor]

/-- Witness for C10 at the spec's 10 kg configuration. -/
theorem C10_witness :
    (0.705 ≤ calculate_speed_efficiency_factor 4 cfg7 ∧
      calculate_speed_efficiency_factor 4 cfg7 ≤ 1.15) ∧
    calculate_speed_efficiency_factor 0 cfg7 = 1.0 :=
  ⟨(C10_efficiency_factor_bounds cfg7 4 (by norm_num [cfg7]) (by norm_num)).1,
   (C10_efficiency_factor_bounds cfg7 0 (by norm_num [cfg7]) (by norm_num)).2.1 rfl⟩

/-- C8 counterexample: with the raw density argument `-1`, the denominator
`2 * airDensity * rotorDiskArea` of the claim is negative, yet
`estimate_hover_power` does not return the ≈15 W/kg mass-based estimate (15 W
for this 1 kg vehicle): it clamps the density to 0.1 and returns the
momentum-theory value, which exceeds 100 W. -/
theorem C8_counterexample :
    2 * (-1 : ℝ) * (Real.pi * (cfg8.rotor_diameter / 2) ^ 2) ≤ 0 ∧
    100 < estimate_hover_power cfg8 (-1) 4 := by
  have hpi := Real.pi_pos
  have hpi315 := Real.pi_lt_d2
  constructor
  · have hrd : cfg8.rotor_diameter = 0.3 := rfl
    rw [hrd]
    nlinarith
  · have h1 : max (0.1 : ℝ) (-1) = 0.1 := max_eq_left (by norm_num)
    have h2 : pyOr cfg8.rotor_diameter 0.3 = 0.3 := by norm_num [pyOr, cfg8]
    have hden : estimate_hover_denominator cfg8 (-1) = 0.0045 * Real.pi := by
      rw [estimate_hover_denominator, h1, h2]
      rw [max_eq_right (by norm_num : (0.1 : ℝ) ≤ 0.3)]
      ring
    have hdenpos : (0 : ℝ) < 0.0045 * Real.pi := by positivity
    have hm : cfg8.mass = 1 := rfl
    have hhp : cfg8.hover_power = none := rfl
    have hcast : ((max 1 4 : ℕ) : ℝ) = 4 := by norm_num
    rw [estimate_hover_power, hhp]
    show 100 < hover_momentum_estimate cfg8 (-1) 4
    rw [hover_momentum_estimate]
    simp only [hden, hm, hcast, GRAVITY]
    rw [if_neg (by nlinarith)]
    have harg : (1 : ℝ) * 9.81 / 4 / (0.0045 * Real.pi) = 545 / Real.pi := by
      field_simp
      ring
    rw [if_neg (not_lt.mpr (by positivity : (0:ℝ) ≤ 1 * 9.81 / 4 / (0.0045 * Real.pi)))]
    rw [harg]
    have h13 : (13 : ℝ) < Real.sqrt (545 / Real.pi) := by
      rw [show (13 : ℝ) = Real.sqrt (13 ^ 2) by
        rw [Real.sqrt_sq (by norm_num)]]
      apply Real.sqrt_lt_sqrt (by norm_num)
      rw [lt_div_iff₀ hpi]
      nlinarith
    have hS0 : 0 ≤ Real.sqrt (545 / Real.pi) := Real.sqrt_nonneg _
    rw [abs_of_nonneg (by positivity)]
    push_cast
    have heq : (1:ℝ) * 9.81 / 4 * Real.sqrt (545 / Real.pi) / 0.7 * 4 =
        9.81 / 0.7 * Real.sqrt (545 / Real.pi) := by ring
    rw [heq]
    nlinarith [h13]

/-- C8 amended: the denominator actually formed by `estimate_hover_power`
(from density clamped to ≥ 0.1 and rotor diameter clamped to ≥ 0.1) is
strictly positive for every input, so the guard branch is unreachable and no
non-finite value can arise; the guard branch itself, were it reachable, would
return `mass * 9.81 * 15` (≈147 W per kg), not ≈15 W per kg. -/
theorem C8_amended_denominator_pos :
    ∀ (config : VehicleConfig) (air_density : ℝ),
      0 < estimate_hover_denominator config air_density ∧
      estimate_hover_guard_fallback config = config.mass * 9.81 * 15 := by
  intro config ad
  constructor
  · unfold estimate_hover_denominator
    have h1 : (0.1 : ℝ) ≤ max 0.1 ad := le_max_left _ _
    have h2 : (0.1 : ℝ) ≤ max 0.1 (pyOr config.rotor_diameter 0.3) := le_max_left _ _
    have hpi := Real.pi_pos
    have hq2 : (0.0025 : ℝ) ≤ (max 0.1 (pyOr config.rotor_diameter 0.3) / 2) ^ 2 := by
      nlinarith
    have hsq : (0 : ℝ) < (max 0.1 (pyOr config.rotor_diameter 0.3) / 2) ^ 2 :=
      lt_of_lt_of_le (by norm_num) hq2
    have hmax1 : (0 : ℝ) < max 0.1 ad := lt_of_lt_of_le (by norm_num) h1
    exact mul_pos (mul_pos (by norm_num) hmax1) (mul_pos hpi hsq)
  · norm_num [estimate_hover_guard_fallback, GRAVITY]

/-- Helper: the multirotor model always returns `min(total, max_power)` with
a non-negative total, so its value lies in `[0, max_power]` whenever
`0 ≤ max_power`. -/
lemma multirotor_power_bounds (config : VehicleConfig) (speed climb_rate air_density : ℝ)
    (wind_data : Option WindData) (airspeed : Option ℝ) (hmp : 0 ≤ config.max_power) :
    0 ≤ calculate_multirotor_power config speed climb_rate air_density wind_data airspeed ∧
      calculate_multirotor_power config speed climb_rate air_density wind_data airspeed ≤
        config.max_power := by
  simp only [calculate_multirotor_power]
  exact ⟨le_min (by positivity) hmp, min_le_right _ _⟩

/-- Helper: the momentum-theory hover estimate is non-negative for
non-negative mass. -/
lemma hover_momentum_estimate_nonneg (config : VehicleConfig) (air_density : ℝ) (n : ℕ)
    (hm : 0 ≤ config.mass) : 0 ≤ hover_momentum_estimate config air_density n := by
  simp only [hover_momentum_estimate]
  split_ifs with h h2
  · unfold estimate_hover_guard_fallback GRAVITY
    nlinarith
  · exact abs_nonneg _
  · exact abs_nonneg _

/-- Helper: `estimate_hover_power` is non-negative for non-negative mass and
a non-negative configured hover power. -/
lemma estimate_hover_power_nonneg (config : VehicleConfig) (air_density : ℝ) (n : ℕ)
    (hm : 0 ≤ config.mass)
    (hhp : ∀ x, config.hover_power = some x → 0 ≤ x) :
    0 ≤ estimate_hover_power config air_density n := by
  unfold estimate_hover_power
  cases hx : config.hover_power with
  | none =>
    simp only [pyOrOpt]
    exact hover_momentum_estimate_nonneg config air_density n hm
  | some v =>
    simp only [pyOrOpt, pyOr]
    split_ifs with hv
    · exact hover_momentum_estimate_nonneg config air_density n hm
    · exact hhp v hx

/-- Helper: the VTOL default/configured forward-thrust power is non-negative
under the expected sign conditions. -/
lemma forward_thrust_nonneg (config : VehicleConfig) (hmp : 0 ≤ config.max_power)
    (hft : ∀ x, config.forward_thrust_power = some x → 0 ≤ x) :
    0 ≤ pyOrOpt config.forward_thrust_power (config.max_power * 0.3) := by
  cases hx : config.forward_thrust_power with
  | none =>
    simp only [pyOrOpt]
    nlinarith
  | some v =>
    simp only [pyOrOpt, pyOr]
    split_ifs with hv
    · nlinarith
    · exact hft v hx

/-- Helper: a successful VTOL power value lies in `[0, max_power]` under the
expected sign conditions on the configuration. -/
lemma vtol_power_ok_bounds (config : VehicleConfig) (speed climb_rate air_density : ℝ)
    (wind_data : Option WindData) (p : ℝ)
    (h : calculate_vtol_power config speed climb_rate air_density wind_data = .ok p)
    (hmp : 0 ≤ config.max_power) (hm : 0 ≤ config.mass)
    (hme : 0 < config.motor_efficiency)
    (hhp : ∀ x, config.hover_power = some x → 0 ≤ x)
    (hft : ∀ x, config.forward_thrust_power = some x → 0 ≤ x) :
    0 ≤ p ∧ p ≤ config.max_power := by
  rw [calculate_vtol_power] at h
  by_cases hsp : speed < 5.0
  · rw [if_pos hsp] at h
    have hb := multirotor_power_bounds config speed climb_rate air_density wind_data none hmp
    have := Except.ok.inj h
    rw [← this]
    exact hb
  · rw [if_neg hsp] at h
    rcases except_bind_ok h with ⟨q, hq, h2⟩
    try simp only [] at h2
    rcases except_bind_ok h2 with ⟨c, hc, h3⟩
    try simp only [] at h3
    have hp := (Except.ok.inj h3).symm
    have hcnn : 0 ≤ c := by
      split_ifs at hc with hcl
      · rcases pydiv_ok hc with ⟨hcv, _⟩
        rw [hcv]
        apply div_nonneg _ hme.le
        unfold GRAVITY
        nlinarith
      · have h0 : (0 : ℝ) = c := by simpa [pure, Except.pure] using hc
        exact le_of_eq h0
    have hhov : 0 ≤ estimate_hover_power config air_density
        (calculate_hover_motors_count config) *
        max 0.3 (1.0 - q * 0.7) := by
      apply mul_nonneg (estimate_hover_power_nonneg config air_density _ hm hhp)
      exact le_trans (by norm_num) (le_max_left _ _)
    have hftp := forward_thrust_nonneg config hmp hft
    rw [hp]
    clear hp h3 h2 h hc hq
    refine ⟨le_min ?_ hmp, min_le_right _ _⟩
    cases wind_data with
    | none =>
      simp only []
      nlinarith [hhov, hftp, hcnn]
    | some wd =>
      simp only []
      have hwf : 0 ≤ (if 0 < speed then
          Real.sqrt ((speed + wd.wind_vector_x) ^ 2 + wd.wind_vector_y ^ 2) / speed
        else 1.0) := by
        split_ifs with h0
        · exact div_nonneg (Real.sqrt_nonneg _) h0.le
        · norm_num
      nlinarith [hhov, hftp, hcnn, hwf,
        mul_nonneg hftp hwf]

/-- Helper: a successful plane power value lies in `[0, max_power]` under the
expected sign conditions on the configuration and inputs. -/
lemma plane_power_ok_bounds (config : VehicleConfig) (speed climb_rate air_density : ℝ)
    (wind_data : Option WindData) (p : ℝ)
    (h : calculate_plane_power config speed climb_rate air_density wind_data = .ok p)
    (hmp : 0 ≤ config.max_power) (had : 0 ≤ air_density)
    (hcd : 0 ≤ config.drag_coefficient) (hwa : 0 ≤ config.wing_area) (hsp : 0 ≤ speed)
    (hm : 0 ≤ config.mass) (hme : 0 < config.motor_efficiency)
    (hpe : 0 < config.propeller_efficiency) :
    0 ≤ p ∧ p ≤ config.max_power := by
  rw [calculate_plane_power] at h
  try simp only [] at h
  rcases except_bind_ok h with ⟨lc, hlc, h2⟩
  try simp only [] at h2
  rcases except_bind_ok h2 with ⟨hp_, hhp_, h3⟩
  try simp only [] at h3
  rcases except_bind_ok h3 with ⟨c, hc, h4⟩
  try simp only [] at h4
  have hpval := (Except.ok.inj h4).symm
  have hdragnn : 0 ≤ 0.5 * air_density *
      (config.drag_coefficient + lc ^ 2 / (Real.pi * 8)) * config.wing_area * speed ^ 2 := by
    have hind : 0 ≤ lc ^ 2 / (Real.pi * 8) :=
      div_nonneg (sq_nonneg _) (by positivity)
    have : 0 ≤ config.drag_coefficient + lc ^ 2 / (Real.pi * 8) := by linarith
    positivity
  have hhpnn : 0 ≤ hp_ := by
    rcases pydiv_ok hhp_ with ⟨hv, _⟩
    rw [hv]
    exact div_nonneg (mul_nonneg hdragnn hsp) (mul_pos hme hpe).le
  rw [hpval]
  constructor
  · apply le_min _ hmp
    exact le_trans (by nlinarith) (le_max_right _ _)
  · exact min_le_right _ _

/-- C1 counterexample: for a plane configuration with a negative drag
coefficient (an arbitrary finite configuration value), `calculate_plane_power`
returns a strictly negative power, outside `[0, max_power]`; the multirotor
`except` fallback (`mass * 20.0`, line 153) is likewise returned without the
`[0, max_power]` clamp. -/
theorem C1_counterexample :
    ∃ p, calculate_plane_power cfgP 10 0 1.225 none = .ok p ∧ p < 0 := by
  refine ⟨-1225 / 51, ?_, by norm_num⟩
  norm_num [calculate_plane_power, cfgP, GRAVITY, pydiv, bind, Except.bind, pure,
    Except.pure, min_def, max_def]

/-- C1 amended: the multirotor model's normal return value lies in
`[0, max_power]` whenever `max_power` is non-negative; a successful VTOL or
plane return value lies in `[0, max_power]` under the expected sign
conditions on the configuration and inputs (non-negative mass, air density,
drag coefficient, wing area, speed, positive efficiencies).  The unclamped
internal-failure fallbacks and sign-violating configurations are excluded. -/
theorem C1_amended_power_bounds :
    ∀ (config : VehicleConfig) (speed climb_rate air_density : ℝ)
      (wind_data : Option WindData) (airspeed : Option ℝ),
      (0 ≤ config.max_power →
        0 ≤ calculate_multirotor_power config speed climb_rate air_density wind_data
          airspeed ∧
        calculate_multirotor_power config speed climb_rate air_density wind_data airspeed ≤
          config.max_power) ∧
      (∀ p, calculate_vtol_power config speed climb_rate air_density wind_data = .ok p →
        0 ≤ config.max_power → 0 ≤ config.mass → 0 < config.motor_efficiency →
        (∀ x, config.hover_power = some x → 0 ≤ x) →
        (∀ x, config.forward_thrust_power = some x → 0 ≤ x) →
        0 ≤ p ∧ p ≤ config.max_power) ∧
      (∀ p, calculate_plane_power config speed climb_rate air_density wind_data = .ok p →
        0 ≤ config.max_power → 0 ≤ air_density → 0 ≤ config.drag_coefficient →
        0 ≤ config.wing_area → 0 ≤ speed → 0 ≤ config.mass →
        0 < config.motor_efficiency → 0 < config.propeller_efficiency →
        0 ≤ p ∧ p ≤ config.max_power) := by
  intro config speed climb_rate air_density wind_data airspeed
  refine ⟨fun hmp => multirotor_power_bounds config speed climb_rate air_density wind_data
    airspeed hmp, fun p h hmp hm hme hhp hft => ?_, fun p h hmp had hcd hwa hsp hm hme hpe => ?_⟩
  · exact vtol_power_ok_bounds config speed climb_rate air_density wind_data p h hmp hm hme
      hhp hft
  · exact plane_power_ok_bounds config speed climb_rate air_density wind_data p h hmp had
      hcd hwa hsp hm hme hpe

/-- Witness for C1 (multirotor clause) at a concrete configuration. -/
theorem C1_witness :
    0 ≤ calculate_multirotor_power cfgM 5 1 1.225 none none ∧
      calculate_multirotor_power cfgM 5 1 1.225 none none ≤ cfgM.max_power :=
  (C1_amended_power_bounds cfgM 5 1 1.225 none none).1 (by norm_num [cfgM])

/-- Helper: the haversine distance is non-negative. -/
lemma horizontal_distance_nonneg (wp1 wp2 : Waypoint) :
    0 ≤ horizontal_distance wp1 wp2 := by
  unfold horizontal_distance
  have h := Real.arcsin_nonneg.mpr (Real.sqrt_nonneg (max 0 (haversine_term wp1 wp2)))
  nlinarith

/-- Helper: with positive axis speed limits the flight time is exactly the
maximum of the two per-axis quotients. -/
lemma copter_flight_time_eq (config : VehicleConfig) (wp1 wp2 : Waypoint)
    (hh : 0 < copter_max_horizontal_speed config)
    (hv : 0 < copter_max_vertical_speed config wp1 wp2) :
    copter_flight_time config wp1 wp2 =
      max (horizontal_distance wp1 wp2 / copter_max_horizontal_speed config)
        (|wp2.altitude - wp1.altitude| / copter_max_vertical_speed config wp1 wp2) := by
  unfold copter_flight_time copter_time_horizontal copter_time_vertical
  have hhn := horizontal_distance_nonneg wp1 wp2
  congr 1
  · by_cases h0 : 0 < horizontal_distance wp1 wp2
    · rw [if_pos ⟨h0, hh⟩]
    · rw [if_neg (by tauto),
        show horizontal_distance wp1 wp2 = 0 from le_antisymm (not_lt.mp h0) hhn, zero_div]
  · by_cases h0 : 0 < |wp2.altitude - wp1.altitude|
    · rw [if_pos ⟨h0, hv⟩]
    · rw [if_neg (by tauto),
        show |wp2.altitude - wp1.altitude| = 0 from
          le_antisymm (not_lt.mp h0) (abs_nonneg _), zero_div]

/-- Helper: the copter segment duration is the maximum of the per-axis times,
with positive axis speed limits. -/
lemma copter_interp_total_time (config : VehicleConfig) (wp1 wp2 : Waypoint)
    (wind : Option WindData) (hh : 0 < copter_max_horizontal_speed config)
    (hv : 0 < copter_max_vertical_speed config wp1 wp2) :
    (calculate_copter_interpolated_segments config wp1 wp2 wind).total_time =
      max (horizontal_distance wp1 wp2 / copter_max_horizontal_speed config)
        (|wp2.altitude - wp1.altitude| / copter_max_vertical_speed config wp1 wp2) := by
  rw [← copter_flight_time_eq config wp1 wp2 hh hv]
  unfold calculate_copter_interpolated_segments
  split_ifs with hft
  · exact hft.symm
  · rfl

/-- Helper: identical waypoints give zero haversine distance. -/
lemma horizontal_distance_self (wp : Waypoint) : horizontal_distance wp wp = 0 := by
  simp [horizontal_distance, haversine_term]

/-- Helper: coincident waypoints give zero flight time. -/
lemma copter_flight_time_self (config : VehicleConfig) (wp : Waypoint) :
    copter_flight_time config wp wp = 0 := by
  unfold copter_flight_time copter_time_horizontal copter_time_vertical
  rw [horizontal_distance_self]
  simp

/-- Helper: coincident waypoints yield the all-zero interpolation result. -/
lemma copter_interp_coincident (config : VehicleConfig) (wp : Waypoint)
    (wind : Option WindData) :
    calculate_copter_interpolated_segments config wp wp wind = ⟨[], 0, 0, 0⟩ := by
  unfold calculate_copter_interpolated_segments
  rw [if_pos (copter_flight_time_self config wp)]

/-- C5: the copter segment duration equals the maximum of the horizontal time
(distance over the horizontal speed limit `min(cruise, max)`) and the vertical
time (absolute altitude delta over the climb or descent limit chosen by the
sign of the delta), given positive limits; coincident waypoints yield a
zero-distance, zero-duration, zero-energy segment without failure. -/
theorem C5_segment_duration :
    ∀ (config : VehicleConfig) (wp1 wp2 : Waypoint) (wind : Option WindData),
      (0 < copter_max_horizontal_speed config →
        0 < copter_max_vertical_speed config wp1 wp2 →
        (calculate_copter_interpolated_segments config wp1 wp2 wind).total_time =
          max (horizontal_distance wp1 wp2 / copter_max_horizontal_speed config)
            (|wp2.altitude - wp1.altitude| /
              copter_max_vertical_speed config wp1 wp2)) ∧
      calculate_copter_interpolated_segments config wp1 wp1 wind = ⟨[], 0, 0, 0⟩ :=
  fun config wp1 wp2 wind =>
    ⟨fun hh hv => copter_interp_total_time config wp1 wp2 wind hh hv,
     copter_interp_coincident config wp1 wind⟩

/-- Witness for C5 at the spec's 500 m equatorial mission. -/
theorem C5_witness :
    (calculate_copter_interpolated_segments cfg7 wpE0 wpE1 none).total_time =
      max (horizontal_distance wpE0 wpE1 / copter_max_horizontal_speed cfg7)
        (|wpE1.altitude - wpE0.altitude| / copter_max_vertical_speed cfg7 wpE0 wpE1) :=
  (C5_segment_duration cfg7 wpE0 wpE1 none).1
    (by norm_num [copter_max_horizontal_speed, cfg7, lt_min_iff])
    (by norm_num [copter_max_vertical_speed, cfg7, wpE0, wpE1])

/-- Helper: the horizontal axis time is non-negative. -/
lemma copter_time_horizontal_nonneg (config : VehicleConfig) (wp1 wp2 : Waypoint) :
    0 ≤ copter_time_horizontal config wp1 wp2 := by
  unfold copter_time_horizontal
  split_ifs with h
  · exact div_nonneg h.1.le h.2.le
  · exact le_rfl

/-- Helper: the vertical axis time is non-negative. -/
lemma copter_time_vertical_nonneg (config : VehicleConfig) (wp1 wp2 : Waypoint) :
    0 ≤ copter_time_vertical config wp1 wp2 := by
  unfold copter_time_vertical
  split_ifs with h
  · exact div_nonneg h.1.le h.2.le
  · exact le_rfl

/-- Helper: the flight time is non-negative. -/
lemma copter_flight_time_nonneg (config : VehicleConfig) (wp1 wp2 : Waypoint) :
    0 ≤ copter_flight_time config wp1 wp2 :=
  le_trans (copter_time_horizontal_nonneg config wp1 wp2) (le_max_left _ _)

/-- Helper: the copter segment energy is non-negative when `max_power` is. -/
lemma copter_energy_nonneg (config : VehicleConfig) (wp1 wp2 : Waypoint)
    (wind : Option WindData) (hmp : 0 ≤ config.max_power) :
    0 ≤ copter_energy config wp1 wp2 wind := by
  unfold copter_energy copter_power
  have hp := (multirotor_power_bounds config (copter_airspeed config wp1 wp2 wind)
    (copter_climb_rate config wp1 wp2)
    (calculate_air_density ((wp1.altitude + wp2.altitude) / 2)) wind none hmp).1
  have ht := copter_flight_time_nonneg config wp1 wp2
  positivity

/-- Helper: zero total time forces zero total energy in the interpolation. -/
lemma copter_interp_time_zero_energy (config : VehicleConfig) (wp1 wp2 : Waypoint)
    (wind : Option WindData)
    (h : (calculate_copter_interpolated_segments config wp1 wp2 wind).total_time = 0) :
    (calculate_copter_interpolated_segments config wp1 wp2 wind).total_energy = 0 := by
  unfold calculate_copter_interpolated_segments at h ⊢
  by_cases hft : copter_flight_time config wp1 wp2 = 0
  · rw [if_pos hft]
  · rw [if_neg hft] at h
    exact absurd h hft

/-- Helper: the interpolation's total time is non-negative. -/
lemma copter_interp_time_nonneg (config : VehicleConfig) (wp1 wp2 : Waypoint)
    (wind : Option WindData) :
    0 ≤ (calculate_copter_interpolated_segments config wp1 wp2 wind).total_time := by
  unfold calculate_copter_interpolated_segments
  split_ifs with hft
  · exact le_rfl
  · exact copter_flight_time_nonneg config wp1 wp2

/-- Helper: every segment produced by one loop iteration satisfies
`energy = average_power * duration / 3600` exactly. -/
lemma compute_segment_energy_eq (config : VehicleConfig) (wp1 wp2 : Waypoint) (i : ℕ)
    (cw : Option WindData) (s : FlightSegment)
    (h : compute_segment config wp1 wp2 i cw = .ok s) :
    s.energy_wh = s.average_power_w * s.duration_s / 3600 := by
  unfold compute_segment at h
  rcases htv : config.vehicle_type with _ | _ | _ <;> rw [htv] at h
  · -- multirotor
    have hs := (Except.ok.inj h).symm
    rw [hs]
    simp only []
    by_cases hT : 0 < (calculate_copter_interpolated_segments config wp1 wp2 cw).total_time
    · rw [if_pos hT]
      field_simp
    · rw [if_neg hT]
      have hTz : (calculate_copter_interpolated_segments config wp1 wp2 cw).total_time = 0 :=
        le_antisymm (not_lt.mp hT) (copter_interp_time_nonneg config wp1 wp2 cw)
      rw [copter_interp_time_zero_energy config wp1 wp2 cw hTz]
      ring
  · -- vtol
    rcases except_bind_ok h with ⟨cr, hcr, h2⟩
    try simp only [] at h2
    rcases except_bind_ok h2 with ⟨pw, hpw, h3⟩
    try simp only [] at h3
    have hs := (Except.ok.inj h3).symm
    rw [hs]
  · -- plane
    rcases except_bind_ok h with ⟨cr, hcr, h2⟩
    try simp only [] at h2
    rcases except_bind_ok h2 with ⟨pw, hpw, h3⟩
    try simp only [] at h3
    have hs := (Except.ok.inj h3).symm
    rw [hs]

/-- Helper: a property holding of every successfully computed segment holds
of every segment in a successful loop result. -/
lemma seg_loop_mem_prop {config : VehicleConfig} {wd : List WindData}
    {P : FlightSegment → Prop}
    (hstep : ∀ wp1 wp2 i cw s, compute_segment config wp1 wp2 i cw = .ok s → P s) :
    ∀ (wps : List Waypoint) (i : ℕ) (segs : List FlightSegment),
      seg_loop config wd i wps = .ok segs → ∀ s ∈ segs, P s := by
  intro wps
  induction wps with
  | nil =>
    intro i segs h s hs
    simp only [seg_loop] at h
    rw [← Except.ok.inj h] at hs
    simp at hs
  | cons wp1 rest ih =>
    cases rest with
    | nil =>
      intro i segs h s hs
      simp only [seg_loop] at h
      rw [← Except.ok.inj h] at hs
      simp at hs
    | cons wp2 rest2 =>
      intro i segs h s hs
      simp only [seg_loop] at h
      rcases except_bind_ok h with ⟨s1, hs1, h2⟩
      rcases except_bind_ok h2 with ⟨ss, hss, h3⟩
      rw [← Except.ok.inj h3] at hs
      rcases List.mem_cons.mp hs with rfl | hmem
      · exact hstep _ _ _ _ _ hs1
      · exact ih (i + 1) ss hss s hmem

/-- C2: in every successfully returned `SimulationResult`, every flight
segment satisfies `energy_wh = average_power_w * duration_s / 3600` exactly
(in exact real arithmetic), for the rotorcraft interpolated path and the
VTOL/plane path, including zero-duration segments. -/
theorem C2_energy_eq_power_times_duration :
    ∀ (config : VehicleConfig) (waypoints : List Waypoint) (wind_data : List WindData)
      (res : SimulationResult),
      calculate_energy_consumption config waypoints wind_data = .ok res →
      ∀ s ∈ res.flight_segments,
        s.energy_wh = s.average_power_w * s.duration_s / 3600 := by
  intro config wps wd res h s hs
  by_cases hlen : wps.length < 2
  · rw [calculate_energy_consumption, if_pos hlen] at h
    exact absurd h (by simp)
  · rw [calculate_energy_consumption, if_neg hlen] at h
    rcases except_bind_ok h with ⟨segs, hsegs, h2⟩
    try simp only [] at h2
    rcases except_bind_ok h2 with ⟨uf, huf, h3⟩
    try simp only [] at h3
    have hres := Except.ok.inj h3
    have hfs : res.flight_segments = segs := by rw [← hres]
    rw [hfs] at hs
    exact seg_loop_mem_prop
      (fun wp1 wp2 i cw s hcs => compute_segment_energy_eq config wp1 wp2 i cw s hcs)
      wps 0 segs hsegs s hs

/-- `pure` never produces an `error`. -/
lemma pure_ne_error {α : Type _} (a : α) (e : PyErr) :
    (pure a : Except PyErr α) ≠ .error e := fun h => Except.noConfusion h

/-- Helper: `calculate_vtol_power` only ever fails with `ZeroDivisionError`. -/
lemma vtol_power_error (config : VehicleConfig) (speed climb_rate air_density : ℝ)
    (wind_data : Option WindData) (e : PyErr)
    (h : calculate_vtol_power config speed climb_rate air_density wind_data = .error e) :
    e = .zeroDivisionError := by
  rw [calculate_vtol_power] at h
  by_cases hsp : speed < 5.0
  · rw [if_pos hsp] at h
    exact absurd h (by simp)
  · rw [if_neg hsp] at h
    rcases except_bind_error h with h1 | ⟨q, hq, h2⟩
    · exact pydiv_error h1
    · try simp only [] at h2
      rcases except_bind_error h2 with h3 | ⟨c, hc, h4⟩
      · split_ifs at h3
        · exact pydiv_error h3
        · exact (pure_ne_error _ _ h3).elim
      · try simp only [] at h4
        exact absurd h4 (by simp)

/-- Helper: `calculate_plane_power` only ever fails with
`ZeroDivisionError`. -/
lemma plane_power_error (config : VehicleConfig) (speed climb_rate air_density : ℝ)
    (wind_data : Option WindData) (e : PyErr)
    (h : calculate_plane_power config speed climb_rate air_density wind_data = .error e) :
    e = .zeroDivisionError := by
  rw [calculate_plane_power] at h
  try simp only [] at h
  rcases except_bind_error h with h1 | ⟨lc, hlc, h2⟩
  · exact pydiv_error h1
  · try simp only [] at h2
    rcases except_bind_error h2 with h3 | ⟨pw, hpw, h4⟩
    · exact pydiv_error h3
    · try simp only [] at h4
      rcases except_bind_error h4 with h5 | ⟨c, hc, h6⟩
      · split_ifs at h5
        · exact pydiv_error h5
        · exact (pure_ne_error _ _ h5).elim
      · try simp only [] at h6
        exact absurd h6 (by simp)

/-- Helper: one loop iteration only ever fails with `ZeroDivisionError`; the
unrecognized-vehicle-type `ValueError` covers no constructor of the enum. -/
lemma compute_segment_error (config : VehicleConfig) (wp1 wp2 : Waypoint) (i : ℕ)
    (cw : Option WindData) (e : PyErr)
    (h : compute_segment config wp1 wp2 i cw = .error e) : e = .zeroDivisionError := by
  unfold compute_segment at h
  rcases htv : config.vehicle_type with _ | _ | _ <;> rw [htv] at h
  · exact absurd h (by simp)
  · rcases except_bind_error h with h1 | ⟨cr, hcr, h2⟩
    · by_cases hd : 0 < calculate_distance wp1 wp2
      · rw [if_pos hd] at h1
        rcases except_bind_error h1 with h5 | ⟨t, ht, h6⟩
        · exact pydiv_error h5
        · exact pydiv_error h6
      · rw [if_neg hd] at h1
        exact (pure_ne_error _ _ h1).elim
    · try simp only [] at h2
      rcases except_bind_error h2 with h3 | ⟨pw, hpw, h4⟩
      · exact vtol_power_error config _ cr _ cw e h3
      · try simp only [] at h4
        exact absurd h4 (by simp)
  · rcases except_bind_error h with h1 | ⟨cr, hcr, h2⟩
    · by_cases hd : 0 < calculate_distance wp1 wp2
      · rw [if_pos hd] at h1
        rcases except_bind_error h1 with h5 | ⟨t, ht, h6⟩
        · exact pydiv_error h5
        · exact pydiv_error h6
      · rw [if_neg hd] at h1
        exact (pure_ne_error _ _ h1).elim
    · try simp only [] at h2
      rcases except_bind_error h2 with h3 | ⟨pw, hpw, h4⟩
      · exact plane_power_error config _ cr _ cw e h3
      · try simp only [] at h4
        exact absurd h4 (by simp)

/-- Helper: the segment loop only ever fails with `ZeroDivisionError`. -/
lemma seg_loop_error (config : VehicleConfig) (wd : List WindData) :
    ∀ (wps : List Waypoint) (i : ℕ) (e : PyErr),
      seg_loop config wd i wps = .error e → e = .zeroDivisionError := by
  intro wps
  induction wps with
  | nil =>
    intro i e h
    simp [seg_loop] at h
  | cons wp1 rest ih =>
    cases rest with
    | nil =>
      intro i e h
      simp [seg_loop] at h
    | cons wp2 rest2 =>
      intro i e h
      simp only [seg_loop] at h
      rcases except_bind_error h with h1 | ⟨s, hs, h2⟩
      · exact compute_segment_error config wp1 wp2 i _ e h1
      · rcases except_bind_error h2 with h3 | ⟨ss, hss, h4⟩
        · exact ih (i + 1) e h3
        · exact absurd h4 (by simp)

/-- C4: the simulation fails with a `ValueError` (input error, producing no
result) exactly when fewer than 2 waypoints are supplied or the vehicle type
is unrecognized (the latter is impossible for the three-valued enum); for
fewer than 2 waypoints the failure is the immediate waypoint-count error,
before any segment is computed. -/
theorem C4_input_error_iff :
    ∀ (config : VehicleConfig) (waypoints : List Waypoint) (wind_data : List WindData),
      (is_input_error (calculate_energy_consumption config waypoints wind_data) ↔
        (waypoints.length < 2 ∨ vehicle_type_recognized config.vehicle_type = false)) ∧
      (waypoints.length < 2 →
        calculate_energy_consumption config waypoints wind_data =
          .error (.valueError "Mindestens 2 Waypoints erforderlich")) := by
  intro config wps wd
  have hrec : vehicle_type_recognized config.vehicle_type = true := by
    rcases config.vehicle_type <;> rfl
  refine ⟨⟨?_, ?_⟩, fun hlen => by rw [calculate_energy_consumption, if_pos hlen]⟩
  · rintro ⟨msg, hmsg⟩
    by_cases hlen : wps.length < 2
    · exact Or.inl hlen
    · exfalso
      rw [calculate_energy_consumption, if_neg hlen] at hmsg
      rcases except_bind_error hmsg with h1 | ⟨segs, hsegs, h2⟩
      · exact PyErr.noConfusion (seg_loop_error config wd wps 0 _ h1)
      · try simp only [] at h2
        rcases except_bind_error h2 with h3 | ⟨uf, huf, h4⟩
        · exact PyErr.noConfusion (pydiv_error h3)
        · try simp only [] at h4
          exact absurd h4 (by simp)
  · rintro (hlen | hbad)
    · exact ⟨_, by rw [calculate_energy_consumption, if_pos hlen]⟩
    · rw [hrec] at hbad
      exact absurd hbad (by simp)

/-- Witness for C4 at an empty waypoint list. -/
theorem C4_witness :
    (is_input_error (calculate_energy_consumption cfgM [] []) ↔
      (([] : List Waypoint).length < 2 ∨
        vehicle_type_recognized cfgM.vehicle_type = false)) ∧
    calculate_energy_consumption cfgM [] [] =
      .error (.valueError "Mindestens 2 Waypoints erforderlich") :=
  ⟨(C4_input_error_iff cfgM [] []).1, (C4_input_error_iff cfgM [] []).2 (by simp)⟩

/-- Helper: the 3-D distance is non-negative. -/
lemma calculate_distance_nonneg (wp1 wp2 : Waypoint) :
    0 ≤ calculate_distance wp1 wp2 := Real.sqrt_nonneg _

/-- Helper: the interpolation's total distance is non-negative. -/
lemma copter_interp_distance_nonneg (config : VehicleConfig) (wp1 wp2 : Waypoint)
    (wind : Option WindData) :
    0 ≤ (calculate_copter_interpolated_segments config wp1 wp2 wind).total_distance := by
  unfold calculate_copter_interpolated_segments
  split_ifs with hft
  · exact le_rfl
  · exact calculate_distance_nonneg wp1 wp2

/-- Helper: the interpolation's total energy is non-negative when
`max_power` is. -/
lemma copter_interp_energy_nonneg (config : VehicleConfig) (wp1 wp2 : Waypoint)
    (wind : Option WindData) (hmp : 0 ≤ config.max_power) :
    0 ≤ (calculate_copter_interpolated_segments config wp1 wp2 wind).total_energy := by
  unfold calculate_copter_interpolated_segments
  split_ifs with hft
  · exact le_rfl
  · exact copter_energy_nonneg config wp1 wp2 wind hmp

/-- Helper: a multirotor loop iteration always succeeds, with non-negative
numeric segment fields. -/
lemma compute_segment_multirotor_ok (config : VehicleConfig) (wp1 wp2 : Waypoint)
    (i : ℕ) (cw : Option WindData) (ht : config.vehicle_type = .multirotor)
    (hmp : 0 ≤ config.max_power) :
    ∃ s, compute_segment config wp1 wp2 i cw = .ok s ∧ SegNonneg s := by
  unfold compute_segment
  rw [ht]
  refine ⟨_, rfl, ?_⟩
  · have hT := copter_interp_time_nonneg config wp1 wp2 cw
    have hD := copter_interp_distance_nonneg config wp1 wp2 cw
    have hE := copter_interp_energy_nonneg config wp1 wp2 cw hmp
    refine ⟨hD, hT, hE, ?_, ?_⟩
    · show (0:ℝ) ≤ if 0 < (calculate_copter_interpolated_segments config wp1 wp2 cw).total_time
        then (calculate_copter_interpolated_segments config wp1 wp2 cw).total_distance /
          (calculate_copter_interpolated_segments config wp1 wp2 cw).total_time else 0
      split_ifs with h
      · exact div_nonneg hD h.le
      · exact le_rfl
    · show (0:ℝ) ≤ if 0 < (calculate_copter_interpolated_segments config wp1 wp2 cw).total_time
        then (calculate_copter_interpolated_segments config wp1 wp2 cw).total_energy * 3600 /
          (calculate_copter_interpolated_segments config wp1 wp2 cw).total_time else 0
      split_ifs with h
      · exact div_nonneg (by nlinarith) h.le
      · exact le_rfl

/-- Helper: the multirotor segment loop always succeeds with non-negative
segment fields. -/
lemma seg_loop_multirotor_ok (config : VehicleConfig) (wd : List WindData)
    (ht : config.vehicle_type = .multirotor) (hmp : 0 ≤ config.max_power) :
    ∀ (wps : List Waypoint) (i : ℕ),
      ∃ segs, seg_loop config wd i wps = .ok segs ∧ ∀ s ∈ segs, SegNonneg s := by
  intro wps
  induction wps with
  | nil =>
    intro i
    exact ⟨[], by simp [seg_loop], by simp⟩
  | cons wp1 rest ih =>
    cases rest with
    | nil =>
      intro i
      exact ⟨[], by simp [seg_loop], by simp⟩
    | cons wp2 rest2 =>
      intro i
      obtain ⟨s, hs, hsn⟩ := compute_segment_multirotor_ok config wp1 wp2 i (wind_at wd i)
        ht hmp
      obtain ⟨segs, hsegs, hsegsn⟩ := ih (i + 1)
      refine ⟨s :: segs, ?_, ?_⟩
      · simp only [seg_loop]
        rw [except_ok_bind hs]
        try simp only []
        rw [except_ok_bind hsegs]
      · intro x hx
        rcases List.mem_cons.mp hx with rfl | hmem
        · exact hsn
        · exact hsegsn x hmem

/-- C3 counterexample: a multirotor mission that passes input validation
(2 waypoints, recognized type) but has zero battery capacity makes
`calculate_energy_consumption` raise `ZeroDivisionError` at the
battery-usage division (line 475) instead of returning a result. -/
theorem C3_counterexample :
    calculate_energy_consumption cfgZ [wpE0, wpE0] [] = .error .zeroDivisionError := by
  obtain ⟨segs, hsegs, _⟩ := seg_loop_multirotor_ok cfgZ [] rfl
    (by norm_num [cfgZ, cfgM]) [wpE0, wpE0] 0
  rw [calculate_energy_consumption, if_neg (by norm_num)]
  rw [except_ok_bind hsegs]
  try simp only []
  have hbwh : cfgZ.battery_capacity * cfgZ.battery_voltage / 1000 = 0 := by
    norm_num [cfgZ, cfgM]
  rw [hbwh]
  rw [show pydiv (List.map FlightSegment.energy_wh segs).sum 0 =
      .error .zeroDivisionError by unfold pydiv; rw [if_pos rfl]]
  rfl

/-- C3 amended: for a multirotor mission that passes input validation, with a
non-negative power ceiling and a non-zero battery (capacity × voltage > 0),
the simulation always returns a result whose core numeric fields (totals,
battery usage, per-segment fields, and the non-signed summary fields) are all
non-negative.  Zero battery capacity/voltage and the signed summary fields
(`remaining_energy_wh`, `remaining_battery_percent`, which go negative when
the mission exceeds the battery) are excluded, as is the VTOL/plane path with
zero cruise speed, which divides by zero. -/
theorem C3_amended_mission_result :
    ∀ (config : VehicleConfig) (waypoints : List Waypoint) (wind_data : List WindData),
      config.vehicle_type = .multirotor → 2 ≤ waypoints.length →
      0 ≤ config.max_power → 0 < config.battery_capacity * config.battery_voltage →
      ∃ res, calculate_energy_consumption config waypoints wind_data = .ok res ∧
        0 ≤ res.total_energy_wh ∧ 0 ≤ res.total_distance_m ∧ 0 ≤ res.total_time_s ∧
        0 ≤ res.battery_usage_percent ∧ (∀ s ∈ res.flight_segments, SegNonneg s) ∧
        0 < res.summary.battery_capacity_wh ∧ 0 ≤ res.summary.flight_time_minutes ∧
        0 ≤ res.summary.energy_per_km ∧ 0 ≤ res.summary.average_speed_ms ∧
        0 ≤ res.summary.max_range_estimate_km := by
  intro config wps wd ht h2 hmp hb
  obtain ⟨segs, hsegs, hsn⟩ := seg_loop_multirotor_ok config wd ht hmp wps 0
  have hE : 0 ≤ (segs.map FlightSegment.energy_wh).sum := by
    apply List.sum_nonneg
    intro x hx
    rcases List.mem_map.mp hx with ⟨s, hs, rfl⟩
    exact (hsn s hs).2.2.1
  have hT : 0 ≤ (segs.map FlightSegment.duration_s).sum := by
    apply List.sum_nonneg
    intro x hx
    rcases List.mem_map.mp hx with ⟨s, hs, rfl⟩
    exact (hsn s hs).2.1
  have hD : 0 ≤ (segs.map FlightSegment.distance_m).sum := by
    apply List.sum_nonneg
    intro x hx
    rcases List.mem_map.mp hx with ⟨s, hs, rfl⟩
    exact (hsn s hs).1
  have hbwh : 0 < config.battery_capacity * config.battery_voltage / 1000 :=
    div_pos hb (by norm_num)
  rw [calculate_energy_consumption, if_neg (by omega), except_ok_bind hsegs]
  try simp only []
  rw [except_ok_bind (pydiv_ok_of_ne (ne_of_gt hbwh))]
  try simp only []
  refine ⟨_, rfl, ?_, ?_, ?_, ?_, ?_, ?_, ?_, ?_, ?_, ?_⟩
  · exact hE
  · exact hD
  · exact hT
  · show (0:ℝ) ≤ (segs.map FlightSegment.energy_wh).sum /
      (config.battery_capacity * config.battery_voltage / 1000) * 100
    have := div_nonneg hE hbwh.le
    nlinarith
  · exact hsn
  · exact hbwh
  · show (0:ℝ) ≤ (segs.map FlightSegment.duration_s).sum / 60
    positivity
  · show (0:ℝ) ≤ if 0 < (segs.map FlightSegment.distance_m).sum then
      (segs.map FlightSegment.energy_wh).sum /
        ((segs.map FlightSegment.distance_m).sum / 1000) else 0
    split_ifs with h
    · exact div_nonneg hE (by positivity)
    · exact le_rfl
  · show (0:ℝ) ≤ if 0 < (segs.map FlightSegment.duration_s).sum then
      (segs.map FlightSegment.distance_m).sum / (segs.map FlightSegment.duration_s).sum
      else 0
    split_ifs with h
    · exact div_nonneg hD h.le
    · exact le_rfl
  · show (0:ℝ) ≤ if 0 < (segs.map FlightSegment.energy_wh).sum then
      config.battery_capacity * config.battery_voltage / 1000 /
        (segs.map FlightSegment.energy_wh).sum *
        ((segs.map FlightSegment.distance_m).sum / 1000) else 0
    split_ifs with h
    · have h1 : 0 ≤ config.battery_capacity * config.battery_voltage / 1000 /
          (segs.map FlightSegment.energy_wh).sum := div_nonneg hbwh.le h.le
      have h3 : 0 ≤ (segs.map FlightSegment.distance_m).sum / 1000 := by positivity
      exact mul_nonneg h1 h3
    · exact le_rfl

/-- Witness for C3 at a concrete coincident-waypoint multirotor mission. -/
theorem C3_witness :
    ∃ res, calculate_energy_consumption cfgM [wpE0, wpE0] [] = .ok res ∧
      0 ≤ res.total_energy_wh ∧ 0 ≤ res.total_distance_m ∧ 0 ≤ res.total_time_s ∧
      0 ≤ res.battery_usage_percent ∧ (∀ s ∈ res.flight_segments, SegNonneg s) ∧
      0 < res.summary.battery_capacity_wh ∧ 0 ≤ res.summary.flight_time_minutes ∧
      0 ≤ res.summary.energy_per_km ∧ 0 ≤ res.summary.average_speed_ms ∧
      0 ≤ res.summary.max_range_estimate_km :=
  C3_amended_mission_result cfgM [wpE0, wpE0] [] rfl (by norm_num)
    (by norm_num [cfgM]) (by norm_num [cfgM])

/-- Witness for C2 at a concrete coincident-waypoint multirotor mission. -/
theorem C2_witness :
    ∃ res, calculate_energy_consumption cfgM [wpE0, wpE0] [] = .ok res ∧
      ∀ s ∈ res.flight_segments,
        s.energy_wh = s.average_power_w * s.duration_s / 3600 := by
  obtain ⟨segs, hsegs, _⟩ := seg_loop_multirotor_ok cfgM [] rfl
    (by norm_num [cfgM]) [wpE0, wpE0] 0
  have hbwh : cfgM.battery_capacity * cfgM.battery_voltage / 1000 ≠ 0 := by
    norm_num [cfgM]
  have heq : ∃ res, calculate_energy_consumption cfgM [wpE0, wpE0] [] = .ok res := by
    rw [calculate_energy_consumption, if_neg (by norm_num), except_ok_bind hsegs]
    try simp only []
    rw [except_ok_bind (pydiv_ok_of_ne hbwh)]
    try simp only []
    exact ⟨_, rfl⟩
  obtain ⟨res, hres⟩ := heq
  exact ⟨res, hres, C2_energy_eq_power_times_duration cfgM [wpE0, wpE0] [] res hres⟩

/-! ### Concrete evaluation of the spec's tailwind scenario (C7):
two waypoints 500 m apart on the equator, 10 m/s wind vector pointing
exactly along the flight bearing (due east). -/

/-- The eastern waypoint's longitude converts to exactly `1/12742` rad. -/
lemma radians_wpE1 : radians (90 / (6371 * Real.pi)) = 1 / 12742 := by
  unfold radians
  have hpi := Real.pi_ne_zero
  field_simp
  ring

/-- The haversine term of the equatorial pair. -/
lemma haversine_term_wpE0_wpE1 :
    haversine_term wpE0 wpE1 = Real.sin (1 / 12742 / 2) ^ 2 := by
  unfold haversine_term
  have h0 : radians wpE0.latitude = 0 := by norm_num [radians, wpE0]
  have h1 : radians wpE1.latitude = 0 := by norm_num [radians, wpE1]
  have h2 : radians wpE1.longitude - radians wpE0.longitude = 1 / 12742 := by
    rw [show wpE1.longitude = 90 / (6371 * Real.pi) from rfl,
      show wpE0.longitude = (0 : ℝ) from rfl, radians_wpE1]
    norm_num [radians]
  rw [h0, h1, h2]
  norm_num

/-- The equatorial pair is exactly 500 m apart. -/
lemma horizontal_distance_wpE0_wpE1 : horizontal_distance wpE0 wpE1 = 500 := by
  unfold horizontal_distance
  rw [haversine_term_wpE0_wpE1, max_eq_right (sq_nonneg _)]
  have hpi3 := Real.pi_gt_three
  have hsin_pos : 0 < Real.sin (1 / 12742 / 2) :=
    Real.sin_pos_of_pos_of_lt_pi (by norm_num) (by nlinarith)
  rw [Real.sqrt_sq hsin_pos.le]
  rw [Real.arcsin_sin (by nlinarith) (by nlinarith)]
  norm_num

/-- The flight bearing of the equatorial pair is due east (90°). -/
lemma flight_bearing_wpE0_wpE1 : flight_bearing_deg wpE0 wpE1 = 90 := by
  unfold flight_bearing_deg
  have h0 : radians wpE0.latitude = 0 := by norm_num [radians, wpE0]
  have h1 : radians wpE1.latitude = 0 := by norm_num [radians, wpE1]
  have h2 : radians wpE1.longitude - radians wpE0.longitude = 1 / 12742 := by
    rw [show wpE1.longitude = 90 / (6371 * Real.pi) from rfl,
      show wpE0.longitude = (0 : ℝ) from rfl, radians_wpE1]
    norm_num [radians]
  rw [h0, h1, h2]
  simp only []
  rw [Real.cos_zero, Real.sin_zero]
  rw [show Real.sin (1 / 12742) * 1 = Real.sin (1 / 12742) by ring,
    show (1 : ℝ) * 0 - 0 * 1 * Real.cos (1 / 12742) = 0 by ring]
  have hpi3 := Real.pi_gt_three
  have hsin_pos : 0 < Real.sin (1 / 12742) :=
    Real.sin_pos_of_pos_of_lt_pi (by norm_num) (by nlinarith)
  unfold atan2
  rw [if_neg (lt_irrefl 0), if_neg (lt_irrefl 0), if_pos hsin_pos]
  have hdeg : degrees (Real.pi / 2) = 90 := by
    unfold degrees
    have hpi := Real.pi_ne_zero
    field_simp
    ring
  rw [hdeg]
  unfold pymod
  have hfl : ⌊(90 + 360 : ℝ) / 360⌋ = 1 := by
    apply Int.floor_eq_iff.mpr
    norm_num
  rw [hfl]
  norm_num

/-- The wind vector of `wind7` is a pure tailwind: the computed headwind
component is exactly −10 m/s, matching the claim's premise. -/
lemma headwind_wpE0_wpE1_wind7 : headwind_component wpE0 wpE1 wind7 = -10 := by
  unfold headwind_component
  rw [flight_bearing_wpE0_wpE1]
  have hr : radians 90 = Real.pi / 2 := by
    unfold radians
    ring
  rw [hr, Real.sin_pi_div_two, Real.cos_pi_div_two]
  norm_num [wind7]

/-- Flight time of the equatorial segment: 500 m at 15 m/s. -/
lemma copter_flight_time_wpE0_wpE1 : copter_flight_time cfg7 wpE0 wpE1 = 100 / 3 := by
  unfold copter_flight_time copter_time_horizontal copter_time_vertical
    copter_max_horizontal_speed copter_max_vertical_speed
  rw [horizontal_distance_wpE0_wpE1]
  norm_num [cfg7, wpE0, wpE1, min_def, max_def]

/-- Ground speed of the equatorial segment. -/
lemma copter_speed_wpE0_wpE1 : copter_actual_horizontal_speed cfg7 wpE0 wpE1 = 15 := by
  unfold copter_actual_horizontal_speed
  rw [copter_flight_time_wpE0_wpE1, horizontal_distance_wpE0_wpE1]
  norm_num

/-- Climb rate of the level equatorial segment. -/
lemma copter_climb_wpE0_wpE1 : copter_climb_rate cfg7 wpE0 wpE1 = 0 := by
  unfold copter_climb_rate
  rw [copter_flight_time_wpE0_wpE1]
  norm_num [wpE0, wpE1]

/-- Sea-level air density evaluates to exactly 1.225. -/
lemma calculate_air_density_zero : calculate_air_density 0 = 1.225 := by
  unfold calculate_air_density AIR_DENSITY
  norm_num [Real.one_rpow, max_def]

/-- Airspeed without wind is the ground speed. -/
lemma copter_airspeed_none : copter_airspeed cfg7 wpE0 wpE1 none = 15 := by
  unfold copter_airspeed
  exact copter_speed_wpE0_wpE1

/-- With the pure 10 m/s tailwind the code computes airspeed
`15 - (-10) = 25`: the tailwind is added to, not subtracted from, the ground
speed. -/
lemma copter_airspeed_wind7 : copter_airspeed cfg7 wpE0 wpE1 (some wind7) = 25 := by
  show max 0.1 (copter_actual_horizontal_speed cfg7 wpE0 wpE1 -
    headwind_component wpE0 wpE1 wind7) = 25
  rw [copter_speed_wpE0_wpE1, headwind_wpE0_wpE1_wind7]
  norm_num

/-- The zero-wind segment power evaluates exactly. -/
lemma copter_power_none_eval : copter_power cfg7 wpE0 wpE1 none = 511203 / 544 := by
  unfold copter_power
  rw [copter_airspeed_none, copter_climb_wpE0_wpE1,
    show (wpE0.altitude + wpE1.altitude) / 2 = 0 by norm_num [wpE0, wpE1],
    calculate_air_density_zero]
  norm_num [calculate_multirotor_power, cfg7, calculate_speed_efficiency_factor,
    sweet_spot_min, sweet_spot_max, calculate_dynamic_drag_coefficient,
    calculate_hover_motors_count, estimate_hover_power, hover_momentum_estimate,
    pyOrOpt, pyOr, calculate_wind_power_impact, GRAVITY, max_def, min_def, abs_div]

/-- The tailwind segment power exceeds 4000 W (the wind correction is applied
a second time inside `calculate_multirotor_power`, giving an effective
airspeed of 35 m/s, and the wind-impact term is added on top). -/
lemma copter_power_wind7_eval : 4000 ≤ copter_power cfg7 wpE0 wpE1 (some wind7) := by
  unfold copter_power
  rw [copter_airspeed_wind7, copter_climb_wpE0_wpE1,
    show (wpE0.altitude + wpE1.altitude) / 2 = 0 by norm_num [wpE0, wpE1],
    calculate_air_density_zero]
  have hs100 : Real.sqrt 100 = 10 := by
    rw [show (100 : ℝ) = 10 ^ 2 by norm_num]
    exact Real.sqrt_sq (by norm_num)
  have hs1225 : Real.sqrt 1225 = 35 := by
    rw [show (1225 : ℝ) = 35 ^ 2 by norm_num]
    exact Real.sqrt_sq (by norm_num)
  norm_num [calculate_multirotor_power, cfg7, wind7, calculate_speed_efficiency_factor,
    sweet_spot_min, sweet_spot_max, calculate_dynamic_drag_coefficient,
    calculate_hover_motors_count, estimate_hover_power, hover_momentum_estimate,
    pyOrOpt, pyOr, calculate_wind_power_impact, GRAVITY, max_def, min_def, abs_div,
    hs100, hs1225]

/-- C7: at the spec's concrete scenario (two-waypoint level rotorcraft
mission, 500 m apart, 10 m/s wind exactly aligned with the flight bearing,
computed headwind component −10), the computed segment power with the
tailwind (≥ 4000 W) strictly exceeds the zero-wind power (≈ 939.7 W),
contradicting the claimed `≤`: the code adds the tailwind to the airspeed
(15 → 25 m/s), adds it again inside the power model (→ 35 m/s), and adds a
non-negative wind-impact term. -/
theorem C7_tailwind_power_exceeds :
    headwind_component wpE0 wpE1 wind7 = -10 ∧
    copter_airspeed cfg7 wpE0 wpE1 (some wind7) = 25 ∧
    ¬(copter_power cfg7 wpE0 wpE1 (some wind7) ≤ copter_power cfg7 wpE0 wpE1 none) := by
  refine ⟨headwind_wpE0_wpE1_wind7, copter_airspeed_wind7, ?_⟩
  rw [copter_power_none_eval, not_le]
  calc (511203 / 544 : ℝ) < 4000 := by norm_num
  _ ≤ _ := copter_power_wind7_eval

end FlightSim
